import Mathlib

/-!
Engine-sim intake: the forced-induction controller and the intake tick.

A shallow embedding of `src/src/intake.cpp`, `src/include/intake.h` and
`src/scripting/include/intake_node.h`.

Modelling conventions.

* A C++ `double` is an element of a linearly ordered field `K` with exact
  arithmetic (no rounding, no NaN, no infinities).  Every definition is
  computable and can be run at `K = ℚ`; statements about the trigonometric
  attenuation instantiate `K = ℝ`.
* `a / b` is field division.  It agrees with the C++ quotient whenever
  `b ≠ 0`; no theorem below relies on the value of a quotient by zero.
* The gas chamber (`GasSystem`), the unit helpers (`units::…`), `constants::pi`
  and the `<cmath>` functions are not part of the sources at hand.  They are
  taken as parameters, collected in `Externals`.
* Member functions become functions from the object state (`Intake`) to the
  new object state.
-/

namespace EngineSim

universe u v

/-! ## `<algorithm>` helpers -/

section Algorithm

variable {K : Type u} [LinearOrderedField K]

/-- `std::max(a, b)`: `(a < b) ? b : a`. -/
def stdMax (a b : K) : K := if a < b then b else a

/-- `std::min(a, b)`: `(b < a) ? b : a`. -/
def stdMin (a b : K) : K := if b < a then b else a

/-- `std::clamp(v, lo, hi)`: `(v < lo) ? lo : (hi < v) ? hi : v`. -/
def stdClamp (v lo hi : K) : K := if v < lo then lo else if hi < v then hi else v

end Algorithm

/-! ## Data model (`intake.h`) -/

/-- `Intake::ForcedInductionType`. -/
inductive ForcedInductionType where
  | None
  | Turbocharger
  | Supercharger
  deriving DecidableEq, Repr

/-- `Intake::ForcedInductionParameters`. -/
structure ForcedInductionParameters (K : Type u) where
  type : ForcedInductionType
  maxBoostPressure : K
  spoolUpTime : K
  spoolDownTime : K
  efficiency : K
  idleBoostFraction : K

/-- `Intake::Parameters`. -/
structure Parameters (K : Type u) where
  volume : K
  CrossSectionArea : K
  InputFlowK : K
  IdleFlowK : K
  RunnerFlowRate : K
  MolecularAfr : K
  IdleThrottlePlatePosition : K
  RunnerLength : K
  VelocityDecay : K
  forcedInduction : ForcedInductionParameters K

/-- `GasSystem::Mix`: the three composition fractions of a gas mixture. -/
structure Mix (K : Type u) where
  p_fuel : K
  p_inert : K
  p_o2 : K

/-- The value fields of `GasSystem::FlowParameters` that `Intake::process` fills in
(the two chamber pointers are passed to the flow primitive separately). -/
structure FlowParameters (K : Type u) where
  k_flow : K
  crossSectionArea_0 : K
  crossSectionArea_1 : K
  direction_x : K
  direction_y : K
  dt : K

/-- Everything `intake.cpp` uses that lives outside the sources at hand: the gas
chamber type `G` with its member functions, the unit constants, `constants::pi`
and the `<cmath>` functions.  Each chamber member function is a function of the
chamber state it is called on and of its arguments. -/
structure Externals (K : Type u) (G : Type v) where
  /-- `units::pressure(1.0, units::atm)`. -/
  atm1 : K
  /-- `units::celcius(25.0)`. -/
  celcius25 : K
  /-- `units::volume(1000.0, units::m3)`. -/
  volume1000 : K
  /-- `units::distance(100.0, units::m)`. -/
  distance100 : K
  /-- `units::area(10, units::m2)`. -/
  area10 : K
  /-- `constants::pi`. -/
  pi : K
  /-- `std::sqrt`. -/
  sqrt : K → K
  /-- `std::cos`. -/
  cos : K → K
  /-- `std::pow`. -/
  pow : K → K → K
  /-- `GasSystem::initialize(P, V, T)`. -/
  gsInitialize : G → K → K → K → G
  /-- `GasSystem::setGeometry(width, height, dx, dy)`. -/
  gsSetGeometry : G → K → K → K → K → G
  /-- `GasSystem::reset(P, T, mix)`. -/
  gsReset : G → K → K → Mix K → G
  /-- `GasSystem::mix()`. -/
  gsMix : G → Mix K
  /-- `GasSystem::heatCapacityRatio()`. -/
  gsHeatCapacityRatio : G → K
  /-- `system_1.flow(params)` with `params.system_0`, `params.system_1`: returns the
  net flow and the two chambers after the exchange. -/
  gsFlow : FlowParameters K → G → G → K × G × G
  /-- `GasSystem::dissipateExcessVelocity()`. -/
  gsDissipateExcessVelocity : G → G
  /-- `GasSystem::updateVelocity(dt, beta)`. -/
  gsUpdateVelocity : G → K → K → G

/-- The data members of `class Intake`. -/
structure Intake (K : Type u) (G : Type v) where
  m_system : G
  m_throttle : K
  m_flow : K
  m_flowRate : K
  m_totalFuelInjected : K
  m_crossSectionArea : K
  m_inputFlowK : K
  m_idleFlowK : K
  m_runnerFlowRate : K
  m_molecularAfr : K
  m_idleThrottlePlatePosition : K
  m_runnerLength : K
  m_velocityDecay : K
  m_forcedInductionParameters : ForcedInductionParameters K
  m_boostPressure : K
  m_boostLevel : K
  m_boostTemperature : K
  m_atmosphere : G

section Code

variable {K : Type u} [LinearOrderedField K] {G : Type v}

/-- The default member initialisers of `ForcedInductionParameters`. -/
def ForcedInductionParameters.default : ForcedInductionParameters K :=
  { type := ForcedInductionType.None
    maxBoostPressure := 0
    spoolUpTime := 0.25
    spoolDownTime := 0.35
    efficiency := 1
    idleBoostFraction := 0 }

/-- `Intake::Intake()`.  The constructor leaves `m_runnerFlowRate` and
`m_velocityDecay` unassigned; their indeterminate values are the arguments
`runnerFlowRate₀` and `velocityDecay₀`.  `g₀` is a default-constructed chamber. -/
def Intake.ctor (ext : Externals K G) (g₀ : G) (runnerFlowRate₀ velocityDecay₀ : K) :
    Intake K G :=
  { m_system := g₀
    m_throttle := 1
    m_flow := 0
    m_flowRate := 0
    m_totalFuelInjected := 0
    m_crossSectionArea := 0
    m_inputFlowK := 0
    m_idleFlowK := 0
    m_runnerFlowRate := runnerFlowRate₀
    m_molecularAfr := 0
    m_idleThrottlePlatePosition := 0
    m_runnerLength := 0
    m_velocityDecay := velocityDecay₀
    m_forcedInductionParameters := ForcedInductionParameters.default
    m_boostPressure := 0
    m_boostLevel := 0
    m_boostTemperature := ext.celcius25
    m_atmosphere := g₀ }

/-- `Intake::initialize(Parameters &params)`. -/
def Intake.initialize (ext : Externals K G) (s : Intake K G) (params : Parameters K) :
    Intake K G :=
  let width := ext.sqrt params.CrossSectionArea
  let system :=
    ext.gsSetGeometry (ext.gsInitialize s.m_system ext.atm1 params.volume ext.celcius25)
      width (params.volume / params.CrossSectionArea) 1 0
  let atmosphere :=
    ext.gsSetGeometry (ext.gsInitialize s.m_atmosphere ext.atm1 ext.volume1000 ext.celcius25)
      ext.distance100 ext.distance100 1 0
  let boostLevel := stdClamp params.forcedInduction.idleBoostFraction 0 1
  { s with
    m_system := system
    m_atmosphere := atmosphere
    m_inputFlowK := params.InputFlowK
    m_molecularAfr := params.MolecularAfr
    m_idleFlowK := params.IdleFlowK
    m_idleThrottlePlatePosition := params.IdleThrottlePlatePosition
    m_runnerLength := params.RunnerLength
    m_crossSectionArea := params.CrossSectionArea
    m_velocityDecay := params.VelocityDecay
    m_runnerFlowRate := params.RunnerFlowRate
    m_forcedInductionParameters := params.forcedInduction
    m_boostLevel := boostLevel
    m_boostPressure := boostLevel * stdMax 0 params.forcedInduction.maxBoostPressure
    m_boostTemperature := ext.celcius25 }

/-- `Intake::getThrottlePlatePosition()`. -/
def Intake.getThrottlePlatePosition (s : Intake K G) : K :=
  s.m_idleThrottlePlatePosition * s.m_throttle

/-- `Intake::getBoostPressure()`. -/
def Intake.getBoostPressure (s : Intake K G) : K := s.m_boostPressure

/-- `Intake::getBoostLevel()`. -/
def Intake.getBoostLevel (s : Intake K G) : K := s.m_boostLevel

/-- `Intake::getBoostTemperature()`. -/
def Intake.getBoostTemperature (s : Intake K G) : K := s.m_boostTemperature

/-- `Intake::updateForcedInduction(double dt)`. -/
def Intake.updateForcedInduction (s : Intake K G) (dt : K) : Intake K G :=
  if s.m_forcedInductionParameters.type = ForcedInductionType.None
      ∨ s.m_forcedInductionParameters.maxBoostPressure ≤ 0 then
    { s with
      m_boostLevel := stdClamp s.m_forcedInductionParameters.idleBoostFraction 0 1
      m_boostPressure := 0 }
  else
    let idleLevel := stdClamp s.m_forcedInductionParameters.idleBoostFraction 0 1
    let target := stdMax (stdClamp s.m_throttle 0 1) idleLevel
    let spoolUpTime := stdMax s.m_forcedInductionParameters.spoolUpTime 1e-3
    let spoolDownTime := stdMax s.m_forcedInductionParameters.spoolDownTime 1e-3
    let newLevel :=
      if target > s.m_boostLevel then
        stdMin target (s.m_boostLevel + dt / spoolUpTime)
      else
        stdMax target (s.m_boostLevel - dt / spoolDownTime)
    let newLevel :=
      if s.m_forcedInductionParameters.type = ForcedInductionType.Supercharger then
        stdMin target (newLevel + dt / stdMax 1e-3 (0.5 * spoolUpTime) * (target - newLevel))
      else
        newLevel
    let boostLevel := stdClamp newLevel idleLevel 1
    { s with
      m_boostLevel := boostLevel
      m_boostPressure := boostLevel * stdMax 0 s.m_forcedInductionParameters.maxBoostPressure }

/-- The main-path mixture synthesised by `process` (`fuelAirMix`). -/
def fuelAirMix (molecularAfr : K) : Mix K :=
  let ideal_afr := 0.8 * molecularAfr * 4
  let p_air := ideal_afr / (1 + ideal_afr)
  { p_fuel := 1 - p_air
    p_inert := p_air * 0.75
    p_o2 := p_air * 0.25 }

/-- The idle-circuit mixture synthesised by `process` (`fuelMix`). -/
def fuelMix : Mix K :=
  let idle_afr : K := 2.0
  let p_idle_air := idle_afr / (1 + idle_afr)
  { p_fuel := 1.0 - p_idle_air
    p_inert := p_idle_air * 0.75
    p_o2 := p_idle_air * 0.25 }

/-- `current_afr` of `process`: computed from the plenum's mixture and never used. -/
def Intake.currentAfr (ext : Externals K G) (s : Intake K G) : K :=
  ((ext.gsMix s.m_system).p_o2 + (ext.gsMix s.m_system).p_inert) / (ext.gsMix s.m_system).p_fuel

/-- The expression `std::cos(throttle * constants::pi / 2)` of line 88, as a function of
the cosine, the constant and the effective throttle position. -/
def flowAttenuation (cos : K → K) (pi throttle : K) : K :=
  cos (throttle * pi / 2)

/-- `flowAttenuation` of `process` (lines 87-88): the expression above at
`throttle = getThrottlePlatePosition()`. -/
def Intake.flowAttenuation (ext : Externals K G) (s : Intake K G) : K :=
  EngineSim.flowAttenuation ext.cos ext.pi s.getThrottlePlatePosition

/-- `sourcePressure` of `process`, read after the controller has run. -/
def Intake.sourcePressure (ext : Externals K G) (s : Intake K G) : K :=
  ext.atm1 + s.m_boostPressure

/-- `sourceTemperature` of `process`, read after the controller has run. -/
def Intake.sourceTemperature (ext : Externals K G) (s : Intake K G) : K :=
  let ambientPressure := ext.atm1
  let ambientTemperature := ext.celcius25
  let efficiency := stdMax 0.05 s.m_forcedInductionParameters.efficiency
  let hcr := ext.gsHeatCapacityRatio s.m_system
  if s.m_boostPressure > 0 then
    let pressureRatio := s.sourcePressure ext / ambientPressure
    let temperatureRise := ext.pow pressureRatio ((hcr - 1) / hcr) - 1
    ambientTemperature * (1 + temperatureRise / efficiency)
  else
    ambientTemperature

/-- The flow parameters of the main-path call; `s` is the state after the controller. -/
def Intake.mainFlowParameters (ext : Externals K G) (s : Intake K G) (dt : K) :
    FlowParameters K :=
  { crossSectionArea_0 := ext.area10
    crossSectionArea_1 := s.m_crossSectionArea
    direction_x := 0
    direction_y := -1
    dt := dt
    k_flow := s.flowAttenuation ext * s.m_inputFlowK }

/-- The flow parameters of the idle-path call: the same record with `k_flow` reassigned. -/
def Intake.idleFlowParameters (ext : Externals K G) (s : Intake K G) (dt : K) :
    FlowParameters K :=
  { s.mainFlowParameters ext dt with k_flow := s.m_idleFlowK }

/-- The cumulative fuel update at the end of `process`, from the two returned flows. -/
def accumulateFuel (total p_fuelMain mainFlow p_fuelIdle idleCircuitFlow : K) : K :=
  let total := if mainFlow > 0 then total + p_fuelMain * mainFlow else total
  if idleCircuitFlow > 0 then total + p_fuelIdle * idleCircuitFlow else total

/-- The first call of the flow primitive in `process` (lines 112-116): the scratch
chamber is reset to the source state with the main-path mixture and exchanges gas with
the plenum.  The result is the returned flow, the scratch chamber and the plenum.
`s` is the state after the controller has run. -/
def Intake.mainFlowResult (ext : Externals K G) (s : Intake K G) (dt : K) : K × G × G :=
  ext.gsFlow (s.mainFlowParameters ext dt)
    (ext.gsReset s.m_atmosphere (s.sourcePressure ext) (s.sourceTemperature ext)
      (fuelAirMix s.m_molecularAfr))
    s.m_system

/-- The second call of the flow primitive in `process` (lines 118-122), on the chambers
the first call left behind, with the idle mixture and `k_flow = m_idleFlowK`. -/
def Intake.idleFlowResult (ext : Externals K G) (s : Intake K G) (dt : K) : K × G × G :=
  ext.gsFlow (s.idleFlowParameters ext dt)
    (ext.gsReset (s.mainFlowResult ext dt).2.1 (s.sourcePressure ext) (s.sourceTemperature ext)
      fuelMix)
    (s.mainFlowResult ext dt).2.2

/-- `Intake::process(double dt)`. -/
def Intake.process (ext : Externals K G) (s₀ : Intake K G) (dt : K) : Intake K G :=
  let s := s₀.updateForcedInduction dt
  let flow := (s.mainFlowResult ext dt).1
  let idleCircuitFlow := (s.idleFlowResult ext dt).1
  { s with
    m_boostTemperature := s.sourceTemperature ext
    m_flow := flow
    m_system :=
      ext.gsUpdateVelocity (ext.gsDissipateExcessVelocity (s.idleFlowResult ext dt).2.2)
        dt s.m_velocityDecay
    m_atmosphere := (s.idleFlowResult ext dt).2.1
    m_totalFuelInjected :=
      accumulateFuel s.m_totalFuelInjected (fuelAirMix s.m_molecularAfr).p_fuel flow
        (fuelMix : Mix K).p_fuel idleCircuitFlow }

/-- One simulation step as the caller drives it: the public member `m_throttle` is
assigned, then `process(dt)` runs.  A tick is the pair `(dt, throttle)`. -/
def Intake.tick (ext : Externals K G) (s : Intake K G) (t : K × K) : Intake K G :=
  Intake.process ext { s with m_throttle := t.2 } t.1

/-- A finite sequence of ticks, applied left to right. -/
def Intake.run (ext : Externals K G) (s : Intake K G) (ticks : List (K × K)) : Intake K G :=
  ticks.foldl (Intake.tick ext) s

/-! The intermediate values of `updateForcedInduction`, named for the proofs. -/

/-- `idleLevel` of `updateForcedInduction`. -/
def Intake.idleLevel (s : Intake K G) : K :=
  stdClamp s.m_forcedInductionParameters.idleBoostFraction 0 1

/-- `target` of `updateForcedInduction` after both assignments. -/
def Intake.target (s : Intake K G) : K :=
  stdMax (stdClamp s.m_throttle 0 1) s.idleLevel

/-- The guard of the early return of `updateForcedInduction`. -/
def Intake.inert (s : Intake K G) : Prop :=
  s.m_forcedInductionParameters.type = ForcedInductionType.None
    ∨ s.m_forcedInductionParameters.maxBoostPressure ≤ 0

instance (s : Intake K G) : Decidable s.inert := by
  unfold Intake.inert; infer_instance

/-- `newLevel` of `updateForcedInduction` after the linear ramp (lines 152-160). -/
def Intake.rampLevel (s : Intake K G) (dt : K) : K :=
  if s.target > s.m_boostLevel then
    stdMin s.target
      (s.m_boostLevel + dt / stdMax s.m_forcedInductionParameters.spoolUpTime 1e-3)
  else
    stdMax s.target
      (s.m_boostLevel - dt / stdMax s.m_forcedInductionParameters.spoolDownTime 1e-3)

/-- `newLevel` of `updateForcedInduction` after the supercharger branch (lines 162-166). -/
def Intake.snapLevel (s : Intake K G) (dt : K) : K :=
  if s.m_forcedInductionParameters.type = ForcedInductionType.Supercharger then
    stdMin s.target
      (s.rampLevel dt
        + dt / stdMax 1e-3 (0.5 * stdMax s.m_forcedInductionParameters.spoolUpTime 1e-3)
          * (s.target - s.rampLevel dt))
  else
    s.rampLevel dt

/-- The boost level that one tick stores, as a function of the configuration, the prior
level and the tick `(dt, throttle)` alone: the body of `updateForcedInduction` read on
scalars.  `tick_boostLevel_eq_levelStep` shows that it is the level `process` stores. -/
def levelStep (p : ForcedInductionParameters K) (level : K) (t : K × K) : K :=
  if p.type = ForcedInductionType.None ∨ p.maxBoostPressure ≤ 0 then
    stdClamp p.idleBoostFraction 0 1
  else
    let idleLevel := stdClamp p.idleBoostFraction 0 1
    let target := stdMax (stdClamp t.2 0 1) idleLevel
    let spoolUpTime := stdMax p.spoolUpTime 1e-3
    let spoolDownTime := stdMax p.spoolDownTime 1e-3
    let newLevel :=
      if target > level then stdMin target (level + t.1 / spoolUpTime)
      else stdMax target (level - t.1 / spoolDownTime)
    let newLevel :=
      if p.type = ForcedInductionType.Supercharger then
        stdMin target (newLevel + t.1 / stdMax 1e-3 (0.5 * spoolUpTime) * (target - newLevel))
      else
        newLevel
    stdClamp newLevel idleLevel 1

/-- The controller's target for a throttle value under a configuration:
`max(clamp(throttle,0,1), clamp(idleBoostFraction,0,1))` (lines 145-147). -/
def targetOf (p : ForcedInductionParameters K) (throttle : K) : K :=
  stdMax (stdClamp throttle 0 1) (stdClamp p.idleBoostFraction 0 1)

/-- The data members of `es_script::IntakeNode`, after the inputs have been read. -/
structure IntakeNode (K : Type u) where
  m_throttleGammaUnused : K
  m_parameters : Parameters K
  m_forcedInductionTypeName : String

/-- The loop of `parseForcedInductionType` (lines 40-44): `normalized` starts empty and
receives `tolower(c)` for every `c` of `typeName`, in order. -/
def IntakeNode.normalized (typeName : String) : String :=
  typeName.data.foldl (fun normalized c => normalized.push (Char.toLower c)) ""

/-- `IntakeNode::parseForcedInductionType(const std::string &typeName)`. -/
def IntakeNode.parseForcedInductionType (typeName : String) : ForcedInductionType :=
  let normalized := IntakeNode.normalized typeName
  if normalized = "turbo" ∨ normalized = "turbocharger" ∨ normalized = "turbo_charger" then
    ForcedInductionType.Turbocharger
  else if normalized = "super" ∨ normalized = "supercharger"
      ∨ normalized = "blower" ∨ normalized = "super_charger" then
    ForcedInductionType.Supercharger
  else
    ForcedInductionType.None

/-- The local `parameters` of `IntakeNode::generate` at the call of `initialize`
(lines 25-32). -/
def IntakeNode.generateParameters (node : IntakeNode K) : Parameters K :=
  let parameters := node.m_parameters
  let parameters : Parameters K :=
    { parameters with
      forcedInduction :=
        { parameters.forcedInduction with
          type := IntakeNode.parseForcedInductionType node.m_forcedInductionTypeName } }
  let parameters : Parameters K :=
    if parameters.forcedInduction.maxBoostPressure < 0 then
      { parameters with
        forcedInduction := { parameters.forcedInduction with maxBoostPressure := 0 } }
    else parameters
  let parameters : Parameters K :=
    if parameters.forcedInduction.efficiency ≤ 0 then
      { parameters with
        forcedInduction := { parameters.forcedInduction with efficiency := 1.0 } }
    else parameters
  parameters

/-- `IntakeNode::generate(EngineContext *context)`; `intake` is the object that
`context->getIntake(this)` returns, and the result is that object after `initialize`. -/
def IntakeNode.generate (ext : Externals K G) (node : IntakeNode K) (intake : Intake K G) :
    Intake K G :=
   Intake.initialize ext intake node.generateParameters

/-- The ASCII-lowercased form of a name: every character replaced by its `tolower`. -/
def asciiLower (name : String) : String :=
  String.mk (name.data.map Char.toLower)

/-- Character `c'` is `c` with, at most, its letter case changed. -/
def caseVariant (c c' : Char) : Prop :=
  c' = c ∨ c' = c.toUpper ∨ c' = c.toLower

/-! ### The denominators of the divisions -/

/-- The denominators of the three divisions of `updateForcedInduction`: the floored
spool-up time (line 154), the floored spool-down time (line 158) and the floored snap
time (line 164). -/
def Intake.controllerDenominators (s : Intake K G) : List K :=
  [ stdMax s.m_forcedInductionParameters.spoolUpTime 1e-3,
    stdMax s.m_forcedInductionParameters.spoolDownTime 1e-3,
    stdMax 1e-3 (0.5 * stdMax s.m_forcedInductionParameters.spoolUpTime 1e-3) ]

/-- The denominators of the divisions of `process` that are formed from the intake's own
members and from constants: `1 + ideal_afr` (line 74), `1 + idle_afr` (line 81),
`ambientPressure` (line 98) and the floored `efficiency` (line 100).  `s` is the state
after the controller has run. -/
def Intake.processDenominators (ext : Externals K G) (s : Intake K G) : List K :=
  [ 1 + 0.8 * s.m_molecularAfr * 4,
    1 + 2.0,
    ext.atm1,
    stdMax 0.05 s.m_forcedInductionParameters.efficiency ]

/-- The denominators of the divisions of `process` that are values returned by the
plenum chamber: its fuel fraction (line 72) and its heat-capacity ratio (line 99). -/
def Intake.chamberDenominators (ext : Externals K G) (s : Intake K G) : List K :=
  [ (ext.gsMix s.m_system).p_fuel, ext.gsHeatCapacityRatio s.m_system ]

end Code


/-! ## A concrete stand-in for the external chamber

The chamber is outside the sources, so concrete evaluations need some chamber to run
against.  `benchExternals` is a deliberately small one over `ℚ`: a chamber is the
amount of gas it holds and a flow moves `k_flow * dt` from source to sink. -/

section Bench

/-- A small chamber over any field, around a given cosine and a given value of
`constants::pi`; `std::sqrt` and `std::pow` are stand-ins as well. -/
def standInExternals {K : Type u} [LinearOrderedField K] (cos : K → K) (pi : K) :
    Externals K K :=
  { atm1 := 101325
    celcius25 := 298.15
    volume1000 := 1000
    distance100 := 100
    area10 := 10
    pi := pi
    sqrt := fun x => x
    cos := cos
    pow := fun x _ => x
    gsInitialize := fun _ P V T => P * V / T
    gsSetGeometry := fun g _ _ _ _ => g
    gsReset := fun _ P _ _ => P
    gsMix := fun _ => { p_fuel := 0, p_inert := 0.75, p_o2 := 0.25 }
    gsHeatCapacityRatio := fun _ => 1.4
    gsFlow := fun p src dst => (p.k_flow * p.dt, src - p.k_flow * p.dt, dst + p.k_flow * p.dt)
    gsDissipateExcessVelocity := fun g => g
    gsUpdateVelocity := fun g _ _ => g }

/-- The stand-in chamber over `ℚ`, with a polynomial in place of the cosine. -/
def benchExternals : Externals ℚ ℚ :=
  standInExternals (fun x => 1 - x * x / 2) 3.14159265359

/-- A forced-induction configuration with the given unit type, `maxBoostPressure = 1`,
`spoolUpTime = 1`, `spoolDownTime = 10`, `efficiency = 1` and the given idle fraction. -/
def benchForcedInduction (type : ForcedInductionType) (idle : ℚ) :
    ForcedInductionParameters ℚ :=
  { type := type
    maxBoostPressure := 1
    spoolUpTime := 1
    spoolDownTime := 10
    efficiency := 1
    idleBoostFraction := idle }

/-- A configuration record around `benchForcedInduction`, with the given molecular
air-fuel ratio and the default values of `intake.h` where it has them. -/
def benchParameters (type : ForcedInductionType) (idle molecularAfr : ℚ) : Parameters ℚ :=
  { volume := 1
    CrossSectionArea := 1
    InputFlowK := 1
    IdleFlowK := 1
    RunnerFlowRate := 1
    MolecularAfr := molecularAfr
    IdleThrottlePlatePosition := 0.975
    RunnerLength := 0.1016
    VelocityDecay := 0.5
    forcedInduction := benchForcedInduction type idle }

/-- A freshly constructed and initialised intake over the stand-in chamber. -/
def benchIntake (type : ForcedInductionType) (idle molecularAfr : ℚ) : Intake ℚ ℚ :=
   Intake.initialize benchExternals (Intake.ctor benchExternals 0 0 0)
    (benchParameters type idle molecularAfr)

end Bench

/-! ## Basic facts about the helpers and the frame of a tick -/

section Lemmas

variable {K : Type u} [LinearOrderedField K] {G : Type v}

theorem stdMax_eq_max (a b : K) : stdMax a b = max a b := by
  unfold stdMax
  split_ifs with h
  · exact (max_eq_right h.le).symm
  · exact (max_eq_left (not_lt.mp h)).symm

theorem le_stdClamp {v lo hi : K} (h : lo ≤ hi) : lo ≤ stdClamp v lo hi := by
  unfold stdClamp
  split_ifs with h₁ h₂
  · exact le_rfl
  · exact h
  · exact not_lt.mp h₁

theorem stdClamp_le {v lo hi : K} (h : lo ≤ hi) : stdClamp v lo hi ≤ hi := by
  unfold stdClamp
  split_ifs with h₁ h₂
  · exact h
  · exact le_rfl
  · exact not_lt.mp h₂

theorem stdClamp_of_mem {v lo hi : K} (h₁ : lo ≤ v) (h₂ : v ≤ hi) : stdClamp v lo hi = v := by
  unfold stdClamp
  rw [if_neg (not_lt.mpr h₁), if_neg (not_lt.mpr h₂)]

/-- The clamped idle fraction lies in `[0, 1]`. -/
theorem idleLevel_nonneg (x : K) : 0 ≤ stdClamp x 0 1 := le_stdClamp zero_le_one

theorem idleLevel_le_one (x : K) : stdClamp x 0 1 ≤ 1 := stdClamp_le zero_le_one

theorem updateForcedInduction_parameters (s : Intake K G) (dt : K) :
    (s.updateForcedInduction dt).m_forcedInductionParameters = s.m_forcedInductionParameters := by
  unfold Intake.updateForcedInduction
  split_ifs <;> rfl

theorem process_boostLevel (ext : Externals K G) (s : Intake K G) (dt : K) :
    (s.process ext dt).m_boostLevel = (s.updateForcedInduction dt).m_boostLevel := rfl

theorem process_boostPressure (ext : Externals K G) (s : Intake K G) (dt : K) :
    (s.process ext dt).m_boostPressure = (s.updateForcedInduction dt).m_boostPressure := rfl

theorem process_parameters (ext : Externals K G) (s : Intake K G) (dt : K) :
    (s.process ext dt).m_forcedInductionParameters = s.m_forcedInductionParameters :=
  updateForcedInduction_parameters s dt

theorem tick_parameters (ext : Externals K G) (s : Intake K G) (t : K × K) :
    (s.tick ext t).m_forcedInductionParameters = s.m_forcedInductionParameters :=
  process_parameters ext _ t.1

theorem run_parameters (ext : Externals K G) (s : Intake K G) (ticks : List (K × K)) :
    (s.run ext ticks).m_forcedInductionParameters = s.m_forcedInductionParameters := by
  induction ticks generalizing s with
  | nil => rfl
  | cons t ts ih =>
    show ((s.tick ext t).run ext ts).m_forcedInductionParameters = _
    rw [ih, tick_parameters]

theorem run_append (ext : Externals K G) (s : Intake K G) (xs ys : List (K × K)) :
    s.run ext (xs ++ ys) = (s.run ext xs).run ext ys := by
  simp [Intake.run, List.foldl_append]

theorem run_snoc (ext : Externals K G) (s : Intake K G) (xs : List (K × K)) (t : K × K) :
    s.run ext (xs ++ [t]) = (s.run ext xs).tick ext t := by
  rw [run_append]; rfl

theorem initialize_parameters (ext : Externals K G) (s : Intake K G) (params : Parameters K) :
    ( Intake.initialize ext s params).m_forcedInductionParameters = params.forcedInduction := rfl

theorem initialize_boostLevel (ext : Externals K G) (s : Intake K G) (params : Parameters K) :
    ( Intake.initialize ext s params).m_boostLevel
      = stdClamp params.forcedInduction.idleBoostFraction 0 1 := rfl

theorem updateForcedInduction_inert {s : Intake K G} (h : s.inert) (dt : K) :
    (s.updateForcedInduction dt).m_boostLevel = s.idleLevel
      ∧ (s.updateForcedInduction dt).m_boostPressure = 0 := by
  have h' : s.m_forcedInductionParameters.type = ForcedInductionType.None
      ∨ s.m_forcedInductionParameters.maxBoostPressure ≤ 0 := h
  unfold Intake.updateForcedInduction
  rw [if_pos h']
  exact ⟨rfl, rfl⟩

theorem updateForcedInduction_active {s : Intake K G} (h : ¬ s.inert) (dt : K) :
    (s.updateForcedInduction dt).m_boostLevel = stdClamp (s.snapLevel dt) s.idleLevel 1
      ∧ (s.updateForcedInduction dt).m_boostPressure
          = stdClamp (s.snapLevel dt) s.idleLevel 1
              * stdMax 0 s.m_forcedInductionParameters.maxBoostPressure := by
  have h' : ¬ (s.m_forcedInductionParameters.type = ForcedInductionType.None
      ∨ s.m_forcedInductionParameters.maxBoostPressure ≤ 0) := h
  unfold Intake.updateForcedInduction
  rw [if_neg h']
  exact ⟨rfl, rfl⟩

/-- One controller step keeps the level inside `[idleLevel, 1]`, whatever the prior
level, the throttle and `dt` are. -/
theorem updateForcedInduction_boostLevel_mem (s : Intake K G) (dt : K) :
    stdClamp s.m_forcedInductionParameters.idleBoostFraction 0 1
        ≤ (s.updateForcedInduction dt).m_boostLevel
      ∧ (s.updateForcedInduction dt).m_boostLevel ≤ 1 := by
  by_cases h : s.inert
  · rw [(updateForcedInduction_inert h dt).1]
    exact ⟨le_rfl, idleLevel_le_one _⟩
  · rw [(updateForcedInduction_active h dt).1]
    exact ⟨le_stdClamp (idleLevel_le_one _), stdClamp_le (idleLevel_le_one _)⟩

theorem tick_boostLevel_mem (ext : Externals K G) (s : Intake K G) (t : K × K) :
    stdClamp s.m_forcedInductionParameters.idleBoostFraction 0 1 ≤ (s.tick ext t).m_boostLevel
      ∧ (s.tick ext t).m_boostLevel ≤ 1 :=
  updateForcedInduction_boostLevel_mem { s with m_throttle := t.2 } t.1

theorem spoolTime_pos (x : K) : 0 < stdMax x 1e-3 := by
  rw [stdMax_eq_max]
  exact lt_max_of_lt_right (by norm_num)

theorem idleLevel_le_target (s : Intake K G) : s.idleLevel ≤ s.target := by
  unfold Intake.target
  rw [stdMax_eq_max]
  exact le_max_right _ _

theorem tick_boostLevel_eq_levelStep (ext : Externals K G) (s : Intake K G) (t : K × K) :
    (s.tick ext t).m_boostLevel = levelStep s.m_forcedInductionParameters s.m_boostLevel t := by
  show (Intake.updateForcedInduction { s with m_throttle := t.2 } t.1).m_boostLevel = _
  unfold Intake.updateForcedInduction levelStep
  split_ifs <;> rfl

theorem run_boostLevel_eq_foldl (ext : Externals K G) (s : Intake K G) (ticks : List (K × K)) :
    (s.run ext ticks).m_boostLevel
      = ticks.foldl (levelStep s.m_forcedInductionParameters) s.m_boostLevel := by
  induction ticks generalizing s with
  | nil => rfl
  | cons t ts ih =>
    show ((s.tick ext t).run ext ts).m_boostLevel = _
    rw [ih, tick_parameters, tick_boostLevel_eq_levelStep]
    rfl

theorem idle_le_targetOf (p : ForcedInductionParameters K) (th : K) :
    stdClamp p.idleBoostFraction 0 1 ≤ targetOf p th := by
  unfold targetOf
  rw [stdMax_eq_max]
  exact le_max_right _ _

theorem targetOf_le_one (p : ForcedInductionParameters K) (th : K) : targetOf p th ≤ 1 := by
  unfold targetOf
  rw [stdMax_eq_max]
  exact max_le (stdClamp_le zero_le_one) (idleLevel_le_one _)

/-- After `initialize` and, unless the unit type is `None`, after every tick the stored
pressure is the stored level times `max(0, maxBoostPressure)`. -/
theorem run_boostPressure_eq_mul (ext : Externals K G) (s₀ : Intake K G)
    (params : Parameters K) (ticks : List (K × K))
    (h : ticks = [] ∨ params.forcedInduction.type ≠ ForcedInductionType.None
      ∨ params.forcedInduction.maxBoostPressure ≤ 0
      ∨ params.forcedInduction.idleBoostFraction ≤ 0) :
    (( Intake.initialize ext s₀ params).run ext ticks).m_boostPressure
      = (( Intake.initialize ext s₀ params).run ext ticks).m_boostLevel
          * stdMax 0 params.forcedInduction.maxBoostPressure := by
  rcases List.eq_nil_or_concat ticks with rfl | ⟨pre, t, rfl⟩
  · rfl
  · have h' : params.forcedInduction.type ≠ ForcedInductionType.None
        ∨ params.forcedInduction.maxBoostPressure ≤ 0
        ∨ params.forcedInduction.idleBoostFraction ≤ 0 := by
      rcases h with h | h
      · simp at h
      · exact h
    rw [List.concat_eq_append, run_snoc]
    set s := ( Intake.initialize ext s₀ params).run ext pre with hs
    have hpar : s.m_forcedInductionParameters = params.forcedInduction := by
      rw [hs, run_parameters, initialize_parameters]
    show (Intake.updateForcedInduction { s with m_throttle := t.2 } t.1).m_boostPressure
      = (Intake.updateForcedInduction { s with m_throttle := t.2 } t.1).m_boostLevel * _
    by_cases hin : ({ s with m_throttle := t.2 } : Intake K G).inert
    · rw [(updateForcedInduction_inert hin t.1).2, (updateForcedInduction_inert hin t.1).1]
      show 0 = stdClamp s.m_forcedInductionParameters.idleBoostFraction 0 1 * _
      rw [hpar]
      have hprod : params.forcedInduction.maxBoostPressure ≤ 0
          ∨ params.forcedInduction.idleBoostFraction ≤ 0 := by
        rcases h' with hty | hm | hi
        · rcases hin with h₁ | h₁
          · exact absurd (hpar ▸ h₁) hty
          · exact Or.inl (hpar ▸ h₁)
        · exact Or.inl hm
        · exact Or.inr hi
      rcases hprod with hm | hi
      · rw [stdMax_eq_max, max_eq_left hm, mul_zero]
      · have h0 : stdClamp params.forcedInduction.idleBoostFraction 0 1 = 0 := by
          unfold stdClamp
          split_ifs with h₁ h₂
          · rfl
          · exact absurd (lt_of_lt_of_le h₂ hi) (by norm_num)
          · exact le_antisymm hi (not_lt.mp h₁)
        rw [h0, zero_mul]
    · rw [(updateForcedInduction_active hin t.1).2, (updateForcedInduction_active hin t.1).1]
      show _ * stdMax 0 s.m_forcedInductionParameters.maxBoostPressure = _
      rw [hpar]

/-- With unit type `None`, a positive `maxBoostPressure` and a positive idle fraction,
every tick leaves a pressure that is not the level times `max(0, maxBoostPressure)`. -/
theorem run_boostPressure_ne_mul (ext : Externals K G) (s₀ : Intake K G)
    (params : Parameters K) (ticks : List (K × K)) (hne : ticks ≠ [])
    (hty : params.forcedInduction.type = ForcedInductionType.None)
    (hmax : 0 < params.forcedInduction.maxBoostPressure)
    (hidle : 0 < params.forcedInduction.idleBoostFraction) :
    (( Intake.initialize ext s₀ params).run ext ticks).m_boostPressure
      ≠ (( Intake.initialize ext s₀ params).run ext ticks).m_boostLevel
          * stdMax 0 params.forcedInduction.maxBoostPressure := by
  rcases List.eq_nil_or_concat ticks with rfl | ⟨pre, t, rfl⟩
  · exact absurd rfl hne
  · rw [List.concat_eq_append, run_snoc]
    set s := ( Intake.initialize ext s₀ params).run ext pre with hs
    have hpar : s.m_forcedInductionParameters = params.forcedInduction := by
      rw [hs, run_parameters, initialize_parameters]
    have hin : ({ s with m_throttle := t.2 } : Intake K G).inert :=
      Or.inl (by show s.m_forcedInductionParameters.type = _; rw [hpar]; exact hty)
    show (Intake.updateForcedInduction { s with m_throttle := t.2 } t.1).m_boostPressure
      ≠ (Intake.updateForcedInduction { s with m_throttle := t.2 } t.1).m_boostLevel * _
    rw [(updateForcedInduction_inert hin t.1).2, (updateForcedInduction_inert hin t.1).1]
    show 0 ≠ stdClamp s.m_forcedInductionParameters.idleBoostFraction 0 1 * _
    rw [hpar, stdMax_eq_max, max_eq_right hmax.le]
    have hpos : 0 < stdClamp params.forcedInduction.idleBoostFraction 0 1 := by
      unfold stdClamp
      split_ifs with h₁ h₂
      · exact absurd hidle (not_lt.mpr h₁.le)
      · exact zero_lt_one
      · exact hidle
    exact (mul_pos hpos hmax).ne

/-- The controller writes `m_boostLevel` and `m_boostPressure` and nothing else. -/
theorem updateForcedInduction_eq (s : Intake K G) (dt : K) :
    s.updateForcedInduction dt
      = { s with
          m_boostLevel := (s.updateForcedInduction dt).m_boostLevel
          m_boostPressure := (s.updateForcedInduction dt).m_boostPressure } := by
  unfold Intake.updateForcedInduction
  split_ifs <;> rfl

theorem updateForcedInduction_molecularAfr (s : Intake K G) (dt : K) :
    (s.updateForcedInduction dt).m_molecularAfr = s.m_molecularAfr := by
  rw [updateForcedInduction_eq]

theorem updateForcedInduction_totalFuelInjected (s : Intake K G) (dt : K) :
    (s.updateForcedInduction dt).m_totalFuelInjected = s.m_totalFuelInjected := by
  rw [updateForcedInduction_eq]

theorem updateForcedInduction_throttle (s : Intake K G) (dt : K) :
    (s.updateForcedInduction dt).m_throttle = s.m_throttle := by
  rw [updateForcedInduction_eq]

theorem updateForcedInduction_idleThrottlePlatePosition (s : Intake K G) (dt : K) :
    (s.updateForcedInduction dt).m_idleThrottlePlatePosition = s.m_idleThrottlePlatePosition := by
  rw [updateForcedInduction_eq]

theorem updateForcedInduction_inputFlowK (s : Intake K G) (dt : K) :
    (s.updateForcedInduction dt).m_inputFlowK = s.m_inputFlowK := by
  rw [updateForcedInduction_eq]

theorem updateForcedInduction_idleFlowK (s : Intake K G) (dt : K) :
    (s.updateForcedInduction dt).m_idleFlowK = s.m_idleFlowK := by
  rw [updateForcedInduction_eq]

/-- The fuel that `process` adds to the cumulative counter: the counter after the tick
in terms of the counter before it and the two flows of the tick. -/
theorem process_totalFuelInjected (ext : Externals K G) (s : Intake K G) (dt : K) :
    (s.process ext dt).m_totalFuelInjected
      = accumulateFuel s.m_totalFuelInjected (fuelAirMix s.m_molecularAfr).p_fuel
          ((s.updateForcedInduction dt).mainFlowResult ext dt).1 (fuelMix : Mix K).p_fuel
          ((s.updateForcedInduction dt).idleFlowResult ext dt).1 := by
  show accumulateFuel (s.updateForcedInduction dt).m_totalFuelInjected
    (fuelAirMix (s.updateForcedInduction dt).m_molecularAfr).p_fuel _ _ _ = _
  rw [updateForcedInduction_totalFuelInjected, updateForcedInduction_molecularAfr]

/-- The increment of the cumulative counter does not depend on the counter. -/
theorem accumulateFuel_eq_add (total a f b g : K) :
    accumulateFuel total a f b g = total + accumulateFuel 0 a f b g := by
  unfold accumulateFuel
  split_ifs <;> ring

/-- Chamber `initialize` followed by `setGeometry` overwrites the whole chamber: then
`Intake::initialize` overwrites every member except the throttle, the recorded flow,
`m_flowRate` and the cumulative injected fuel, which it never assigns. -/
theorem initialize_again (ext : Externals K G) (s s' : Intake K G) (params : Parameters K)
    (hreset : ∀ (g g' : G) (P V T w h dx dy : K),
      ext.gsSetGeometry (ext.gsInitialize g P V T) w h dx dy
        = ext.gsSetGeometry (ext.gsInitialize g' P V T) w h dx dy) :
    Intake.initialize ext s' params
      = { Intake.initialize ext s params with
          m_throttle := s'.m_throttle
          m_flow := s'.m_flow
          m_flowRate := s'.m_flowRate
          m_totalFuelInjected := s'.m_totalFuelInjected } := by
  unfold Intake.initialize
  simp only
  rw [hreset s'.m_system s.m_system, hreset s'.m_atmosphere s.m_atmosphere]

/-- The controller commutes with overwriting the recorded flow, `m_flowRate` and the
cumulative injected fuel. -/
theorem updateForcedInduction_with (s : Intake K G) (f fr tot dt : K) :
    Intake.updateForcedInduction
        { s with m_flow := f, m_flowRate := fr, m_totalFuelInjected := tot } dt
      = { s.updateForcedInduction dt with
          m_flow := f, m_flowRate := fr, m_totalFuelInjected := tot } := by
  unfold Intake.updateForcedInduction
  split_ifs <;> rfl

/-- What a tick computes does not depend on the recorded flow, `m_flowRate` or the
cumulative injected fuel of the state it starts from, except that the fuel of the tick
is added to the counter found. -/
theorem process_with (ext : Externals K G) (s : Intake K G) (f fr tot dt : K) :
    (Intake.process ext
        { s with m_flow := f, m_flowRate := fr, m_totalFuelInjected := tot } dt).m_boostLevel
        = (s.process ext dt).m_boostLevel
      ∧ (Intake.process ext
          { s with m_flow := f, m_flowRate := fr, m_totalFuelInjected := tot } dt).m_boostPressure
        = (s.process ext dt).m_boostPressure
      ∧ (Intake.process ext
          { s with m_flow := f, m_flowRate := fr, m_totalFuelInjected := tot }
            dt).m_boostTemperature
        = (s.process ext dt).m_boostTemperature
      ∧ (Intake.process ext
          { s with m_flow := f, m_flowRate := fr, m_totalFuelInjected := tot } dt).m_flow
        = (s.process ext dt).m_flow
      ∧ (Intake.process ext
          { s with m_flow := f, m_flowRate := fr, m_totalFuelInjected := tot }
            dt).m_totalFuelInjected
        = tot + ((s.process ext dt).m_totalFuelInjected - s.m_totalFuelInjected) := by
  unfold Intake.process
  rw [updateForcedInduction_with]
  refine ⟨rfl, rfl, rfl, rfl, ?_⟩
  show accumulateFuel tot _ _ _ _
    = tot + (accumulateFuel (s.updateForcedInduction dt).m_totalFuelInjected _ _ _ _ - _)
  rw [updateForcedInduction_totalFuelInjected, accumulateFuel_eq_add tot,
    accumulateFuel_eq_add s.m_totalFuelInjected]
  have h : ∀ x y z : K, x + z = x + (y + z - y) := fun x y z => by ring
  exact h _ _ _

/-- The fuel fraction of the main-path mixture is `1 / (1 + idealAfr)`. -/
theorem fuelAirMix_p_fuel {molecularAfr : K} (h : 0 < 1 + 0.8 * molecularAfr * 4) :
    (fuelAirMix molecularAfr).p_fuel = 1 / (1 + 0.8 * molecularAfr * 4) := by
  show 1 - 0.8 * molecularAfr * 4 / (1 + 0.8 * molecularAfr * 4) = _
  field_simp

theorem fuelMix_p_fuel_pos : 0 < (fuelMix : Mix K).p_fuel := by
  show (0 : K) < 1.0 - 2.0 / (1 + 2.0)
  norm_num

theorem accumulateFuel_mono {total a f b g : K} (ha : 0 ≤ a) (hb : 0 ≤ b) :
    total ≤ accumulateFuel total a f b g := by
  unfold accumulateFuel
  split_ifs with h₁ h₂ h₂
  · show total ≤ total + a * f + b * g
    linarith [mul_nonneg ha h₁.le, mul_nonneg hb h₂.le]
  · show total ≤ total + a * f
    linarith [mul_nonneg ha h₁.le]
  · show total ≤ total + b * g
    linarith [mul_nonneg hb h₂.le]
  · exact le_rfl

theorem accumulateFuel_of_nonpos (total a b : K) {f g : K} (hf : f ≤ 0) (hg : g ≤ 0) :
    accumulateFuel total a f b g = total := by
  unfold accumulateFuel
  rw [if_neg (not_lt.mpr hf), if_neg (not_lt.mpr hg)]

/-- The main-path flow coefficient handed to the flow primitive, in terms of the state
before the controller runs. -/
theorem mainFlowParameters_k_flow (ext : Externals K G) (s : Intake K G) (dt : K) :
    ((s.updateForcedInduction dt).mainFlowParameters ext dt).k_flow
      = ext.cos (s.m_idleThrottlePlatePosition * s.m_throttle * ext.pi / 2) * s.m_inputFlowK := by
  show ext.cos ((s.updateForcedInduction dt).m_idleThrottlePlatePosition
      * (s.updateForcedInduction dt).m_throttle * ext.pi / 2)
    * (s.updateForcedInduction dt).m_inputFlowK = _
  rw [updateForcedInduction_idleThrottlePlatePosition, updateForcedInduction_throttle,
    updateForcedInduction_inputFlowK]

theorem flowAttenuation_after_controller (ext : Externals K G) (s : Intake K G) (dt : K) :
    (s.updateForcedInduction dt).flowAttenuation ext
      = flowAttenuation ext.cos ext.pi (s.m_idleThrottlePlatePosition * s.m_throttle) := by
  show flowAttenuation ext.cos ext.pi ((s.updateForcedInduction dt).m_idleThrottlePlatePosition
      * (s.updateForcedInduction dt).m_throttle) = _
  rw [updateForcedInduction_idleThrottlePlatePosition, updateForcedInduction_throttle]

/-- The real cosine has no zero at half a rational number: `π` is irrational. -/
theorem cos_half_rat_ne_zero (q : ℚ) : Real.cos (1 * (q : ℝ) / 2) ≠ 0 := by
  intro h
  obtain ⟨k, hk⟩ := Real.cos_eq_zero_iff.mp h
  have hodd : (2 * (k : ℝ) + 1) ≠ 0 := by
    have : (2 * k + 1 : ℤ) ≠ 0 := by omega
    exact_mod_cast this
  have hpi : Real.pi = ((q / (2 * k + 1) : ℚ) : ℝ) := by
    push_cast
    field_simp
    linarith
  exact irrational_pi ⟨_, hpi.symm⟩

/-- A tick leaves the throttle, the geometry and flow constants and the forced-induction
configuration as they were. -/
theorem process_frame (ext : Externals K G) (s : Intake K G) (dt : K) :
    (s.process ext dt).m_throttle = s.m_throttle
      ∧ (s.process ext dt).m_crossSectionArea = s.m_crossSectionArea
      ∧ (s.process ext dt).m_inputFlowK = s.m_inputFlowK
      ∧ (s.process ext dt).m_idleFlowK = s.m_idleFlowK
      ∧ (s.process ext dt).m_runnerFlowRate = s.m_runnerFlowRate
      ∧ (s.process ext dt).m_molecularAfr = s.m_molecularAfr
      ∧ (s.process ext dt).m_idleThrottlePlatePosition = s.m_idleThrottlePlatePosition
      ∧ (s.process ext dt).m_runnerLength = s.m_runnerLength
      ∧ (s.process ext dt).m_velocityDecay = s.m_velocityDecay
      ∧ (s.process ext dt).m_forcedInductionParameters = s.m_forcedInductionParameters := by
  have h := updateForcedInduction_eq s dt
  refine ⟨?_, ?_, ?_, ?_, ?_, ?_, ?_, ?_, ?_, ?_⟩
  · show (s.updateForcedInduction dt).m_throttle = _
    rw [h]
  · show (s.updateForcedInduction dt).m_crossSectionArea = _
    rw [h]
  · show (s.updateForcedInduction dt).m_inputFlowK = _
    rw [h]
  · show (s.updateForcedInduction dt).m_idleFlowK = _
    rw [h]
  · show (s.updateForcedInduction dt).m_runnerFlowRate = _
    rw [h]
  · show (s.updateForcedInduction dt).m_molecularAfr = _
    rw [h]
  · show (s.updateForcedInduction dt).m_idleThrottlePlatePosition = _
    rw [h]
  · show (s.updateForcedInduction dt).m_runnerLength = _
    rw [h]
  · show (s.updateForcedInduction dt).m_velocityDecay = _
    rw [h]
  · show (s.updateForcedInduction dt).m_forcedInductionParameters = _
    rw [h]

theorem idleFlowParameters_k_flow (ext : Externals K G) (s : Intake K G) (dt : K) :
    ((s.updateForcedInduction dt).idleFlowParameters ext dt).k_flow = s.m_idleFlowK := by
  show (s.updateForcedInduction dt).m_idleFlowK = _
  rw [updateForcedInduction_idleFlowK]

theorem stdMax_zero_nonneg (x : K) : 0 ≤ stdMax 0 x := by
  rw [stdMax_eq_max]
  exact le_max_left _ _

/-- Whatever the prior state, the pressure the controller stores lies in
`[0, max(0, maxBoostPressure)]`. -/
theorem updateForcedInduction_boostPressure_mem (s : Intake K G) (dt : K) :
    0 ≤ (s.updateForcedInduction dt).m_boostPressure
      ∧ (s.updateForcedInduction dt).m_boostPressure
        ≤ stdMax 0 s.m_forcedInductionParameters.maxBoostPressure := by
  have hm := stdMax_zero_nonneg s.m_forcedInductionParameters.maxBoostPressure
  by_cases h : s.inert
  · rw [(updateForcedInduction_inert h dt).2]
    exact ⟨le_rfl, hm⟩
  · rw [(updateForcedInduction_active h dt).2]
    have h0 : 0 ≤ stdClamp (s.snapLevel dt) s.idleLevel 1 :=
      (idleLevel_nonneg _).trans (le_stdClamp (idleLevel_le_one _))
    have h1 : stdClamp (s.snapLevel dt) s.idleLevel 1 ≤ 1 := stdClamp_le (idleLevel_le_one _)
    exact ⟨mul_nonneg h0 hm, mul_le_of_le_one_left hm h1⟩

theorem updateForcedInduction_system (s : Intake K G) (dt : K) :
    (s.updateForcedInduction dt).m_system = s.m_system := by
  rw [updateForcedInduction_eq]

/-- The source temperature of a tick, by cases on the pressure the controller stored. -/
theorem sourceTemperature_after_controller (ext : Externals K G) (s : Intake K G) (dt : K) :
    (s.updateForcedInduction dt).sourceTemperature ext
      = if (s.updateForcedInduction dt).m_boostPressure > 0 then
          ext.celcius25
            * (1 + (ext.pow ((ext.atm1 + (s.updateForcedInduction dt).m_boostPressure) / ext.atm1)
                  ((ext.gsHeatCapacityRatio s.m_system - 1) / ext.gsHeatCapacityRatio s.m_system)
                - 1)
              / stdMax 0.05 s.m_forcedInductionParameters.efficiency)
        else ext.celcius25 := by
  unfold Intake.sourceTemperature Intake.sourcePressure
  rw [updateForcedInduction_system, updateForcedInduction_parameters]

theorem active_of_type_of_pos {p : ForcedInductionParameters K}
    (hty : p.type ≠ ForcedInductionType.None) (hmax : 0 < p.maxBoostPressure) :
    ¬ (p.type = ForcedInductionType.None ∨ p.maxBoostPressure ≤ 0) := by
  rintro (h | h)
  · exact hty h
  · exact absurd hmax (not_lt.mpr h)

/-- The level an active turbocharger stores, with the target named. -/
theorem levelStep_turbo_eq (p : ForcedInductionParameters K) (level : K) (t : K × K)
    (hty : p.type = ForcedInductionType.Turbocharger) (hmax : 0 < p.maxBoostPressure) :
    levelStep p level t
      = stdClamp
          (if targetOf p t.2 > level then
              stdMin (targetOf p t.2) (level + t.1 / stdMax p.spoolUpTime 1e-3)
            else stdMax (targetOf p t.2) (level - t.1 / stdMax p.spoolDownTime 1e-3))
          (stdClamp p.idleBoostFraction 0 1) 1 := by
  unfold levelStep
  rw [if_neg (active_of_type_of_pos (by rw [hty]; decide) hmax)]
  show stdClamp (if p.type = ForcedInductionType.Supercharger then _ else _) _ 1 = _
  rw [if_neg (by rw [hty]; decide)]
  rfl

/-- Two consecutive linear ramps towards the same target add up. -/
theorem ramp_additive (τ L a₁ a₂ b₁ b₂ : K) (ha₂ : 0 ≤ a₂) (hb₂ : 0 ≤ b₂) :
    (if τ > (if τ > L then stdMin τ (L + a₁) else stdMax τ (L - b₁)) then
        stdMin τ ((if τ > L then stdMin τ (L + a₁) else stdMax τ (L - b₁)) + a₂)
      else stdMax τ ((if τ > L then stdMin τ (L + a₁) else stdMax τ (L - b₁)) - b₂))
      = if τ > L then stdMin τ (L + (a₁ + a₂)) else stdMax τ (L - (b₁ + b₂)) := by
  simp only [stdMin, stdMax]
  split_ifs <;> linarith

/-- The linear ramp from a level in `[idle, 1]` towards a target in `[idle, 1]` stays in
`[idle, 1]`. -/
theorem ramp_mem (τ L a b idle : K) (ha : 0 ≤ a) (hb : 0 ≤ b) (hτ₀ : idle ≤ τ) (hτ₁ : τ ≤ 1)
    (hL₀ : idle ≤ L) (hL₁ : L ≤ 1) :
    idle ≤ (if τ > L then stdMin τ (L + a) else stdMax τ (L - b))
      ∧ (if τ > L then stdMin τ (L + a) else stdMax τ (L - b)) ≤ 1 := by
  simp only [stdMin, stdMax]
  split_ifs <;> constructor <;> linarith

/-- After a tick of an active unit the stored pressure is the stored level times
`max(0, maxBoostPressure)`. -/
theorem tick_boostPressure_of_active (ext : Externals K G) (s : Intake K G) (t : K × K)
    (h : ¬ (s.m_forcedInductionParameters.type = ForcedInductionType.None
      ∨ s.m_forcedInductionParameters.maxBoostPressure ≤ 0)) :
    (s.tick ext t).m_boostPressure
      = (s.tick ext t).m_boostLevel * stdMax 0 s.m_forcedInductionParameters.maxBoostPressure := by
  have hin : ¬ ({ s with m_throttle := t.2 } : Intake K G).inert := h
  show (Intake.updateForcedInduction { s with m_throttle := t.2 } t.1).m_boostPressure
    = (Intake.updateForcedInduction { s with m_throttle := t.2 } t.1).m_boostLevel * _
  rw [(updateForcedInduction_active hin t.1).2, (updateForcedInduction_active hin t.1).1]

/-- An active turbocharger starting in `[idle, 1]`: the stored level is the linear ramp,
the final clamp changes nothing. -/
theorem levelStep_turbo_of_mem (p : ForcedInductionParameters K) (level : K) (t : K × K)
    (hty : p.type = ForcedInductionType.Turbocharger) (hmax : 0 < p.maxBoostPressure)
    (hdt : 0 ≤ t.1) (hlo : stdClamp p.idleBoostFraction 0 1 ≤ level) (hhi : level ≤ 1) :
    levelStep p level t
      = if targetOf p t.2 > level then
          stdMin (targetOf p t.2) (level + t.1 / stdMax p.spoolUpTime 1e-3)
        else stdMax (targetOf p t.2) (level - t.1 / stdMax p.spoolDownTime 1e-3) := by
  have hm := ramp_mem (targetOf p t.2) level (t.1 / stdMax p.spoolUpTime 1e-3)
    (t.1 / stdMax p.spoolDownTime 1e-3) (stdClamp p.idleBoostFraction 0 1)
    (div_nonneg hdt (spoolTime_pos _).le) (div_nonneg hdt (spoolTime_pos _).le)
    (idle_le_targetOf p t.2) (targetOf_le_one p t.2) hlo hhi
  rw [levelStep_turbo_eq p level t hty hmax]
  exact stdClamp_of_mem hm.1 hm.2

/-- The level of an active turbocharger is additive in the tick duration. -/
theorem levelStep_turbo_additive (p : ForcedInductionParameters K) (level th dt₁ dt₂ : K)
    (hty : p.type = ForcedInductionType.Turbocharger) (hmax : 0 < p.maxBoostPressure)
    (h₁ : 0 ≤ dt₁) (h₂ : 0 ≤ dt₂) (hlo : stdClamp p.idleBoostFraction 0 1 ≤ level)
    (hhi : level ≤ 1) :
    levelStep p (levelStep p level (dt₁, th)) (dt₂, th) = levelStep p level (dt₁ + dt₂, th) := by
  have hu := spoolTime_pos p.spoolUpTime
  have hd := spoolTime_pos p.spoolDownTime
  have hm := ramp_mem (targetOf p th) level (dt₁ / stdMax p.spoolUpTime 1e-3)
    (dt₁ / stdMax p.spoolDownTime 1e-3) (stdClamp p.idleBoostFraction 0 1)
    (div_nonneg h₁ hu.le) (div_nonneg h₁ hd.le)
    (idle_le_targetOf p th) (targetOf_le_one p th) hlo hhi
  have e₁ := levelStep_turbo_of_mem p level (dt₁, th) hty hmax h₁ hlo hhi
  have e₁₂ := levelStep_turbo_of_mem p level (dt₁ + dt₂, th) hty hmax (add_nonneg h₁ h₂) hlo hhi
  have e₂ := levelStep_turbo_of_mem p (levelStep p level (dt₁, th)) (dt₂, th) hty hmax h₂
    (by rw [e₁]; exact hm.1) (by rw [e₁]; exact hm.2)
  rw [e₂, e₁₂, e₁]
  show (if targetOf p th > _ then stdMin (targetOf p th) (_ + dt₂ / _) else
      stdMax (targetOf p th) (_ - dt₂ / _))
    = if targetOf p th > level then stdMin (targetOf p th) (level + (dt₁ + dt₂) / _)
      else stdMax (targetOf p th) (level - (dt₁ + dt₂) / _)
  rw [add_div, add_div]
  exact ramp_additive (targetOf p th) level _ _ _ _ (div_nonneg h₂ hu.le) (div_nonneg h₂ hd.le)

/-! ### Lower-casing -/

theorem toNat_ofNat_of_lt (n : Nat) (h : n < 0xd800) : (Char.ofNat n).toNat = n := by
  have hv : n.isValidChar := Or.inl h
  unfold Char.ofNat
  rw [dif_pos hv]
  simp [Char.toNat, Char.ofNatAux, UInt32.toNat]

theorem toLower_toLower (c : Char) : c.toLower.toLower = c.toLower := by
  unfold Char.toLower
  simp only
  split_ifs with h1 h2
  · rw [toNat_ofNat_of_lt _ (by omega)] at h2
    omega
  · rfl
  · rfl

theorem toLower_toUpper (c : Char) : c.toUpper.toLower = c.toLower := by
  by_cases h : c.toNat ≥ 97 ∧ c.toNat ≤ 122
  · have hu : c.toUpper = Char.ofNat (c.toNat - 32) := by
      unfold Char.toUpper; simp only; rw [if_pos h]
    have hn : (Char.ofNat (c.toNat - 32)).toNat = c.toNat - 32 :=
      toNat_ofNat_of_lt _ (by omega)
    have hl : c.toLower = c := by
      unfold Char.toLower; simp only; rw [if_neg (by omega)]
    rw [hl, hu]
    unfold Char.toLower
    simp only
    rw [hn, if_pos (by omega)]
    have : c.toNat - 32 + 32 = c.toNat := by omega
    rw [this, Char.ofNat_toNat]
  · have hu : c.toUpper = c := by
      unfold Char.toUpper; simp only; rw [if_neg h]
    rw [hu]

theorem caseVariant_toLower {c c' : Char} (h : caseVariant c c') : c'.toLower = c.toLower := by
  rcases h with rfl | rfl | rfl
  · rfl
  · exact toLower_toUpper c
  · exact toLower_toLower c

theorem foldl_push_toLower (cs : List Char) (acc : String) :
    cs.foldl (fun normalized c => normalized.push (Char.toLower c)) acc
      = String.mk (acc.data ++ cs.map Char.toLower) := by
  induction cs generalizing acc with
  | nil => simp
  | cons c cs ih =>
    rw [List.foldl_cons, ih]
    simp [String.push]

/-- The loop computes the lower-cased name. -/
theorem normalized_eq_asciiLower (typeName : String) :
    IntakeNode.normalized typeName = asciiLower typeName := by
  unfold IntakeNode.normalized asciiLower
  rw [foldl_push_toLower]
  rfl

theorem map_toLower_of_caseVariant {l₁ l₂ : List Char} (h : List.Forall₂ caseVariant l₁ l₂) :
    l₂.map Char.toLower = l₁.map Char.toLower := by
  induction h with
  | nil => rfl
  | cons hc _ ih => rw [List.map_cons, List.map_cons, caseVariant_toLower hc, ih]

theorem asciiLower_eq_of_caseVariant {a b : String}
    (h : List.Forall₂ caseVariant a.data b.data) : asciiLower b = asciiLower a := by
  unfold asciiLower
  rw [map_toLower_of_caseVariant h]

theorem tick_molecularAfr (ext : Externals K G) (s : Intake K G) (t : K × K) :
    (s.tick ext t).m_molecularAfr = s.m_molecularAfr :=
  (process_frame ext { s with m_throttle := t.2 } t.1).2.2.2.2.2.1

theorem run_molecularAfr (ext : Externals K G) (s : Intake K G) (ticks : List (K × K)) :
    (s.run ext ticks).m_molecularAfr = s.m_molecularAfr := by
  induction ticks generalizing s with
  | nil => rfl
  | cons t ts ih =>
    show ((s.tick ext t).run ext ts).m_molecularAfr = _
    rw [ih, tick_molecularAfr]

theorem controllerDenominators_ne_zero (s : Intake K G) :
    ∀ d ∈ s.controllerDenominators, d ≠ 0 := by
  intro d hd
  simp only [Intake.controllerDenominators, List.mem_cons, List.mem_singleton,
    List.mem_nil_iff, or_false] at hd
  rcases hd with rfl | rfl | rfl
  · exact (spoolTime_pos _).ne'
  · exact (spoolTime_pos _).ne'
  · rw [stdMax_eq_max]
    exact (lt_max_of_lt_left (by norm_num)).ne'

theorem processDenominators_ne_zero (ext : Externals K G) (s : Intake K G)
    (hafr : 1 + 0.8 * s.m_molecularAfr * 4 ≠ 0) (hatm : ext.atm1 ≠ 0) :
    ∀ d ∈ s.processDenominators ext, d ≠ 0 := by
  intro d hd
  simp only [Intake.processDenominators, List.mem_cons, List.mem_singleton,
    List.mem_nil_iff, or_false] at hd
  rcases hd with rfl | rfl | rfl | rfl
  · exact hafr
  · norm_num
  · exact hatm
  · rw [stdMax_eq_max]
    exact (lt_max_of_lt_left (by norm_num)).ne'

end Lemmas

/-! ## The claims -/

section Claims

variable {K : Type u} [LinearOrderedField K] {G : Type v}

/-- C1: for every configuration, after `initialize` and after any finite sequence of
ticks (every `dt`, in particular every `dt ≥ 0`, and every throttle value) the boost
level lies in `[clamp(idleBoostFraction, 0, 1), 1]`. -/
theorem boostLevel_mem_idle_one (ext : Externals K G) (s₀ : Intake K G)
    (params : Parameters K) (ticks : List (K × K)) :
    stdClamp params.forcedInduction.idleBoostFraction 0 1
        ≤ (( Intake.initialize ext s₀ params).run ext ticks).m_boostLevel
      ∧ (( Intake.initialize ext s₀ params).run ext ticks).m_boostLevel ≤ 1 := by
  rcases List.eq_nil_or_concat ticks with rfl | ⟨pre, t, rfl⟩
  · exact ⟨le_rfl, idleLevel_le_one _⟩
  · have h := tick_boostLevel_mem ext (( Intake.initialize ext s₀ params).run ext pre) t
    rw [run_parameters, initialize_parameters] at h
    rw [List.concat_eq_append, run_snoc]
    exact h

/-- C2 (as stated, refuted): with unit type `None`, `maxBoostPressure = 1` and
`idleBoostFraction = 1/2`, one tick leaves `boostLevel = 1/2` and `boostPressure = 0`,
which is not `boostLevel * max(0, maxBoostPressure) = 1/2`. -/
theorem boostPressure_product_fails_none :
    ((benchIntake ForcedInductionType.None (1/2) 12.5).tick benchExternals (1, 1)).m_boostLevel
        = 1/2
      ∧ ((benchIntake ForcedInductionType.None (1/2) 12.5).tick benchExternals
            (1, 1)).m_boostPressure = 0
      ∧ ((benchIntake ForcedInductionType.None (1/2) 12.5).tick benchExternals
            (1, 1)).m_boostPressure
          ≠ ((benchIntake ForcedInductionType.None (1/2) 12.5).tick benchExternals
              (1, 1)).m_boostLevel * stdMax 0 1 := by
  have h : (benchIntake ForcedInductionType.None (1/2) 12.5).m_forcedInductionParameters.type
      = ForcedInductionType.None := rfl
  have hi : ({ benchIntake ForcedInductionType.None (1/2) 12.5 with m_throttle := 1 } :
      Intake ℚ ℚ).inert := Or.inl h
  have hl := (updateForcedInduction_inert hi 1).1
  have hp := (updateForcedInduction_inert hi 1).2
  have hidle : ({ benchIntake ForcedInductionType.None (1/2) 12.5 with m_throttle := 1 } :
      Intake ℚ ℚ).idleLevel = 1/2 := by
    norm_num [Intake.idleLevel, benchIntake, Intake.initialize, benchParameters,
      benchForcedInduction, stdClamp]
  refine ⟨hl.trans hidle, hp, ?_⟩
  show (Intake.updateForcedInduction _ _).m_boostPressure
    ≠ (Intake.updateForcedInduction _ _).m_boostLevel * _
  rw [hp, hl, hidle]
  norm_num [stdMax]

/-- C2 (amended): the stored values satisfy
`boostPressure = boostLevel * max(0, maxBoostPressure)` exactly after `initialize`, for
every configuration, and after every tick for every configuration except those with unit
type `None`, `maxBoostPressure > 0` and `idleBoostFraction > 0`; for those, the equation
fails after every tick. -/
theorem boostPressure_eq_level_mul_max (ext : Externals K G) (s₀ : Intake K G)
    (params : Parameters K) (ticks : List (K × K)) :
    (( Intake.initialize ext s₀ params).run ext ticks).m_boostPressure
        = (( Intake.initialize ext s₀ params).run ext ticks).m_boostLevel
            * stdMax 0 params.forcedInduction.maxBoostPressure
      ↔ (ticks = [] ∨ params.forcedInduction.type ≠ ForcedInductionType.None
        ∨ params.forcedInduction.maxBoostPressure ≤ 0
        ∨ params.forcedInduction.idleBoostFraction ≤ 0) := by
  constructor
  · intro heq
    by_contra hcon
    push_neg at hcon
    exact run_boostPressure_ne_mul ext s₀ params ticks hcon.1 hcon.2.1 hcon.2.2.1 hcon.2.2.2 heq
  · exact run_boostPressure_eq_mul ext s₀ params ticks

/-- C2 (amended), at concrete inputs: a turbocharger after two ticks, and the default
configuration of `intake.h` (unit type `None`, `maxBoostPressure = 0`, idle fraction `0`)
after one tick. -/
theorem boostPressure_eq_level_mul_max_witness :
    ((benchIntake ForcedInductionType.Turbocharger 0 12.5).run benchExternals
          [(1/4, 1), (1/4, 1/2)]).m_boostPressure
        = ((benchIntake ForcedInductionType.Turbocharger 0 12.5).run benchExternals
            [(1/4, 1), (1/4, 1/2)]).m_boostLevel * stdMax 0 1
      ∧ (Intake.run benchExternals
            ( Intake.initialize benchExternals (Intake.ctor benchExternals 0 0 0)
              { benchParameters ForcedInductionType.None 0 12.5 with
                forcedInduction := ForcedInductionParameters.default })
            [(1/4, 1)]).m_boostPressure
        = (Intake.run benchExternals
            ( Intake.initialize benchExternals (Intake.ctor benchExternals 0 0 0)
              { benchParameters ForcedInductionType.None 0 12.5 with
                forcedInduction := ForcedInductionParameters.default })
            [(1/4, 1)]).m_boostLevel * stdMax 0 0 :=
  ⟨(boostPressure_eq_level_mul_max benchExternals (Intake.ctor benchExternals 0 0 0)
      (benchParameters ForcedInductionType.Turbocharger 0 12.5) [(1/4, 1), (1/4, 1/2)]).mpr
      (Or.inr (Or.inl (by decide))),
    (boostPressure_eq_level_mul_max benchExternals (Intake.ctor benchExternals 0 0 0)
      { benchParameters ForcedInductionType.None 0 12.5 with
        forcedInduction := ForcedInductionParameters.default } [(1/4, 1)]).mpr
      (Or.inr (Or.inr (Or.inl le_rfl)))⟩

/-- C3: when the unit type is `None` or `maxBoostPressure ≤ 0`, a single tick leaves
`boostLevel = clamp(idleBoostFraction, 0, 1)` and `boostPressure = 0`, for every prior
state (in particular every prior boost level), every `dt` and every throttle value. -/
theorem tick_inert (ext : Externals K G) (s : Intake K G) (dt throttle : K)
    (h : s.m_forcedInductionParameters.type = ForcedInductionType.None
      ∨ s.m_forcedInductionParameters.maxBoostPressure ≤ 0) :
    (s.tick ext (dt, throttle)).m_boostLevel
        = stdClamp s.m_forcedInductionParameters.idleBoostFraction 0 1
      ∧ (s.tick ext (dt, throttle)).m_boostPressure = 0 :=
  updateForcedInduction_inert (s := { s with m_throttle := throttle }) h dt

/-- C3 at a concrete input: a supercharger record whose `maxBoostPressure` is `-1`,
prior level `7/10`, `dt = 1/4`, throttle `1`. -/
theorem tick_inert_witness :
    ((-1 : ℚ) ≤ 0)
      ∧ (({ benchIntake ForcedInductionType.Supercharger (1/5) 12.5 with
              m_forcedInductionParameters :=
                { benchForcedInduction ForcedInductionType.Supercharger (1/5) with
                  maxBoostPressure := -1 }
              m_boostLevel := 7/10 } : Intake ℚ ℚ).tick benchExternals (1/4, 1)).m_boostLevel
          = stdClamp (1/5) 0 1
      ∧ (({ benchIntake ForcedInductionType.Supercharger (1/5) 12.5 with
              m_forcedInductionParameters :=
                { benchForcedInduction ForcedInductionType.Supercharger (1/5) with
                  maxBoostPressure := -1 }
              m_boostLevel := 7/10 } : Intake ℚ ℚ).tick benchExternals (1/4, 1)).m_boostPressure
          = 0 :=
  ⟨by norm_num,
    tick_inert benchExternals
      ({ benchIntake ForcedInductionType.Supercharger (1/5) 12.5 with
          m_forcedInductionParameters :=
            { benchForcedInduction ForcedInductionType.Supercharger (1/5) with
              maxBoostPressure := -1 }
          m_boostLevel := 7/10 } : Intake ℚ ℚ) (1/4) 1 (Or.inr (by norm_num))⟩

/-- C6 (the code at the failing inputs).  A supercharger (idle fraction `0`,
`maxBoostPressure = 1`) is brought to level `1` by one tick at throttle `1`; the throttle
is then set to `0` and a tick with `dt = 0` runs: level and pressure drop from `1` to `0`.
With unit type `None`, `maxBoostPressure = 1` and idle fraction `1/2`, `initialize`
stores the pressure `1/2` and the first tick, with `dt = 0`, stores `0`. -/
theorem zero_dt_tick_changes_boost :
    (Intake.run benchExternals (benchIntake ForcedInductionType.Supercharger 0 12.5)
        [(1, 1)]).m_boostLevel = 1
      ∧ (Intake.run benchExternals (benchIntake ForcedInductionType.Supercharger 0 12.5)
          [(1, 1)]).m_boostPressure = 1
      ∧ (Intake.run benchExternals (benchIntake ForcedInductionType.Supercharger 0 12.5)
          [(1, 1), (0, 0)]).m_boostLevel = 0
      ∧ (Intake.run benchExternals (benchIntake ForcedInductionType.Supercharger 0 12.5)
          [(1, 1), (0, 0)]).m_boostPressure = 0
      ∧ (benchIntake ForcedInductionType.None (1/2) 12.5).m_boostPressure = 1/2
      ∧ (Intake.run benchExternals (benchIntake ForcedInductionType.None (1/2) 12.5)
          [(0, 1)]).m_boostPressure = 0 := by
  have s₁ : levelStep (benchForcedInduction ForcedInductionType.Supercharger 0) 0 (1, 1)
      = 1 := by
    simp +decide only [benchForcedInduction, levelStep, stdClamp, stdMax, stdMin]; norm_num
  have s₂ : levelStep (benchForcedInduction ForcedInductionType.Supercharger 0) 1 (0, 0)
      = 0 := by
    simp +decide only [benchForcedInduction, levelStep, stdClamp, stdMax, stdMin]; norm_num
  have hp : ∀ ty i, (benchIntake ty i 12.5).m_forcedInductionParameters
      = benchForcedInduction ty i := fun _ _ => rfl
  have h₀ : (benchIntake ForcedInductionType.Supercharger 0 12.5).m_boostLevel = 0 := by
    show stdClamp (0 : ℚ) 0 1 = 0
    norm_num [stdClamp]
  have hmax : stdMax (0 : ℚ) 1 = 1 := by norm_num [stdMax]
  have l₁ : (Intake.run benchExternals (benchIntake ForcedInductionType.Supercharger 0 12.5)
      [(1, 1)]).m_boostLevel = 1 := by
    rw [run_boostLevel_eq_foldl, h₀, hp]
    simp only [List.foldl_cons, List.foldl_nil, s₁]
  have l₂ : (Intake.run benchExternals (benchIntake ForcedInductionType.Supercharger 0 12.5)
      [(1, 1), (0, 0)]).m_boostLevel = 0 := by
    rw [run_boostLevel_eq_foldl, h₀, hp]
    simp only [List.foldl_cons, List.foldl_nil, s₁, s₂]
  have p₁ : (Intake.run benchExternals (benchIntake ForcedInductionType.Supercharger 0 12.5)
      [(1, 1)]).m_boostPressure
      = (Intake.run benchExternals (benchIntake ForcedInductionType.Supercharger 0 12.5)
          [(1, 1)]).m_boostLevel * stdMax 0 1 :=
    run_boostPressure_eq_mul benchExternals (Intake.ctor benchExternals 0 0 0)
      (benchParameters ForcedInductionType.Supercharger 0 12.5) [(1, 1)]
      (Or.inr (Or.inl (by decide)))
  have p₂ : (Intake.run benchExternals (benchIntake ForcedInductionType.Supercharger 0 12.5)
      [(1, 1), (0, 0)]).m_boostPressure
      = (Intake.run benchExternals (benchIntake ForcedInductionType.Supercharger 0 12.5)
          [(1, 1), (0, 0)]).m_boostLevel * stdMax 0 1 :=
    run_boostPressure_eq_mul benchExternals (Intake.ctor benchExternals 0 0 0)
      (benchParameters ForcedInductionType.Supercharger 0 12.5) [(1, 1), (0, 0)]
      (Or.inr (Or.inl (by decide)))
  rw [l₁, hmax, mul_one] at p₁
  rw [l₂, zero_mul] at p₂
  refine ⟨l₁, p₁, l₂, p₂, ?_, ?_⟩
  · show stdClamp (1/2 : ℚ) 0 1 * stdMax 0 1 = 1/2
    norm_num [stdClamp, stdMax]
  · exact (updateForcedInduction_inert (s := { benchIntake ForcedInductionType.None (1/2) 12.5
      with m_throttle := 1 }) (Or.inl rfl) 0).2

/-- C7 (amended): let chamber `initialize` followed by `setGeometry` determine the
chamber state.  Initialising an intake with configuration `c` and ticking once with
`(dt, throttle)`, then initialising the same intake again with `c` and ticking once with
the same `(dt, throttle)`, yields the same boost level, boost pressure, boost
temperature and main-path flow both times, and adds the same amount to the cumulative
injected fuel both times (`initialize` does not reset that counter). -/
theorem reinitialize_tick_deterministic (ext : Externals K G) (s₀ : Intake K G)
    (c : Parameters K) (t : K × K)
    (hreset : ∀ (g g' : G) (P V T w h dx dy : K),
      ext.gsSetGeometry (ext.gsInitialize g P V T) w h dx dy
        = ext.gsSetGeometry (ext.gsInitialize g' P V T) w h dx dy) :
    (Intake.tick ext ( Intake.initialize ext
        (Intake.tick ext ( Intake.initialize ext s₀ c) t) c) t).m_boostLevel
        = (Intake.tick ext ( Intake.initialize ext s₀ c) t).m_boostLevel
      ∧ (Intake.tick ext ( Intake.initialize ext
          (Intake.tick ext ( Intake.initialize ext s₀ c) t) c) t).m_boostPressure
        = (Intake.tick ext ( Intake.initialize ext s₀ c) t).m_boostPressure
      ∧ (Intake.tick ext ( Intake.initialize ext
          (Intake.tick ext ( Intake.initialize ext s₀ c) t) c) t).m_boostTemperature
        = (Intake.tick ext ( Intake.initialize ext s₀ c) t).m_boostTemperature
      ∧ (Intake.tick ext ( Intake.initialize ext
          (Intake.tick ext ( Intake.initialize ext s₀ c) t) c) t).m_flow
        = (Intake.tick ext ( Intake.initialize ext s₀ c) t).m_flow
      ∧ (Intake.tick ext ( Intake.initialize ext
            (Intake.tick ext ( Intake.initialize ext s₀ c) t) c) t).m_totalFuelInjected
          - (Intake.tick ext ( Intake.initialize ext s₀ c) t).m_totalFuelInjected
        = (Intake.tick ext ( Intake.initialize ext s₀ c) t).m_totalFuelInjected
          - s₀.m_totalFuelInjected := by
  rw [initialize_again ext s₀ (Intake.tick ext ( Intake.initialize ext s₀ c) t) c hreset]
  obtain ⟨h₁, h₂, h₃, h₄, h₅⟩ := process_with ext
    { Intake.initialize ext s₀ c with m_throttle := t.2 }
    (Intake.tick ext ( Intake.initialize ext s₀ c) t).m_flow
    (Intake.tick ext ( Intake.initialize ext s₀ c) t).m_flowRate
    (Intake.tick ext ( Intake.initialize ext s₀ c) t).m_totalFuelInjected t.1
  refine ⟨h₁, h₂, h₃, h₄, ?_⟩
  refine (congrArg (fun x => x - _) h₅).trans ?_
  show _ + (_ - s₀.m_totalFuelInjected) - _ = _
  exact add_sub_cancel_left _ _

/-- C7 (amended) at a concrete input: the stand-in chamber, whose `initialize` ignores
the state it overwrites. -/
theorem reinitialize_tick_deterministic_witness :
    (Intake.tick benchExternals ( Intake.initialize benchExternals
        (Intake.tick benchExternals (benchIntake ForcedInductionType.Turbocharger 0 12.5) (1, 0))
        (benchParameters ForcedInductionType.Turbocharger 0 12.5)) (1, 0)).m_flow
      = (Intake.tick benchExternals (benchIntake ForcedInductionType.Turbocharger 0 12.5)
          (1, 0)).m_flow :=
  (reinitialize_tick_deterministic benchExternals (Intake.ctor benchExternals 0 0 0)
    (benchParameters ForcedInductionType.Turbocharger 0 12.5) (1, 0)
    (fun _ _ _ _ _ _ _ _ _ => rfl)).2.2.2.1

/-- C7 (as stated, refuted): a freshly constructed intake over the stand-in chamber is
initialised and ticked with `dt = 1`, throttle `0`: both flows are `1` and the
cumulative injected fuel is `1/41 + 1/3 = 44/123`.  Initialised again with the same
configuration and ticked again in the same way, it reports `88/123`. -/
theorem reinitialize_keeps_injected_fuel :
    (Intake.tick benchExternals (benchIntake ForcedInductionType.Turbocharger 0 12.5)
        (1, 0)).m_totalFuelInjected = 44/123
      ∧ (Intake.tick benchExternals ( Intake.initialize benchExternals
          (Intake.tick benchExternals (benchIntake ForcedInductionType.Turbocharger 0 12.5)
            (1, 0))
          (benchParameters ForcedInductionType.Turbocharger 0 12.5)) (1, 0)).m_totalFuelInjected
        = 88/123 := by
  have h₁ : (Intake.tick benchExternals (benchIntake ForcedInductionType.Turbocharger 0 12.5)
      (1, 0)).m_totalFuelInjected = 44/123 := by
    unfold Intake.tick
    rw [process_totalFuelInjected]
    simp only [Intake.mainFlowResult, Intake.idleFlowResult, Intake.idleFlowParameters,
      Intake.mainFlowParameters, Intake.flowAttenuation, Intake.getThrottlePlatePosition,
      updateForcedInduction_throttle, updateForcedInduction_idleThrottlePlatePosition,
      updateForcedInduction_inputFlowK, updateForcedInduction_idleFlowK, benchExternals,
      standInExternals, EngineSim.flowAttenuation, benchIntake, Intake.initialize,
      benchParameters, Intake.ctor, accumulateFuel,
      fuelAirMix, fuelMix]
    norm_num
  refine ⟨h₁, ?_⟩
  rw [initialize_again benchExternals (Intake.ctor benchExternals 0 0 0)
    (Intake.tick benchExternals (benchIntake ForcedInductionType.Turbocharger 0 12.5) (1, 0))
    (benchParameters ForcedInductionType.Turbocharger 0 12.5) (fun _ _ _ _ _ _ _ _ _ => rfl)]
  have h₂ := (process_with benchExternals
    { Intake.initialize benchExternals (Intake.ctor benchExternals 0 0 0)
        (benchParameters ForcedInductionType.Turbocharger 0 12.5) with m_throttle := 0 }
    (Intake.tick benchExternals (benchIntake ForcedInductionType.Turbocharger 0 12.5)
      (1, 0)).m_flow
    (Intake.tick benchExternals (benchIntake ForcedInductionType.Turbocharger 0 12.5)
      (1, 0)).m_flowRate
    (Intake.tick benchExternals (benchIntake ForcedInductionType.Turbocharger 0 12.5)
      (1, 0)).m_totalFuelInjected 1).2.2.2.2
  refine h₂.trans ?_
  show _ + ((Intake.tick benchExternals (benchIntake ForcedInductionType.Turbocharger 0 12.5)
      (1, 0)).m_totalFuelInjected - 0) = 88/123
  rw [h₁]
  norm_num

/-- C8 (as stated, refuted): for `molecularAfr = -1` the main-path mixture has
`idealAfr = -16/5`, `p_air = 16/11` and fuel fraction `-5/11 < 0`. -/
theorem fuelAirMix_negative_fuel_fraction :
    (fuelAirMix (-1 : ℚ)).p_fuel = -5/11 ∧ (fuelAirMix (-1 : ℚ)).p_fuel < 0 := by
  have h : (fuelAirMix (-1 : ℚ)).p_fuel = -5/11 := by
    show (1 : ℚ) - 0.8 * (-1) * 4 / (1 + 0.8 * (-1) * 4) = -5/11
    norm_num
  exact ⟨h, by rw [h]; norm_num⟩

/-- C8 (amended): for every configured `molecularAfr ≥ 0`, both mixtures synthesised by
`process` (the main-path mixture built from `idealAfr = 0.8 * molecularAfr * 4` and the
idle mixture built from the fixed ratio `2.0`) have fuel, inert and oxidizer fractions
that sum to `1` and are each `≥ 0`. -/
theorem mixtures_are_compositions (molecularAfr : K) (h : 0 ≤ molecularAfr) :
    ((fuelAirMix molecularAfr).p_fuel + (fuelAirMix molecularAfr).p_inert
          + (fuelAirMix molecularAfr).p_o2 = 1
        ∧ 0 ≤ (fuelAirMix molecularAfr).p_fuel ∧ 0 ≤ (fuelAirMix molecularAfr).p_inert
        ∧ 0 ≤ (fuelAirMix molecularAfr).p_o2)
      ∧ ((fuelMix : Mix K).p_fuel + (fuelMix : Mix K).p_inert + (fuelMix : Mix K).p_o2 = 1
        ∧ 0 ≤ (fuelMix : Mix K).p_fuel ∧ 0 ≤ (fuelMix : Mix K).p_inert
        ∧ 0 ≤ (fuelMix : Mix K).p_o2) := by
  have hx : (0 : K) ≤ 0.8 * molecularAfr * 4 := by
    have : (0 : K) ≤ 0.8 := by norm_num
    positivity
  have hden : (0 : K) < 1 + 0.8 * molecularAfr * 4 := by linarith
  have hair : 0 ≤ 0.8 * molecularAfr * 4 / (1 + 0.8 * molecularAfr * 4) :=
    div_nonneg hx hden.le
  have hair1 : 0.8 * molecularAfr * 4 / (1 + 0.8 * molecularAfr * 4) ≤ 1 :=
    (div_le_one hden).mpr (by linarith)
  refine ⟨⟨?_, ?_, ?_, ?_⟩, ⟨?_, ?_, ?_, ?_⟩⟩
  · show 1 - 0.8 * molecularAfr * 4 / (1 + 0.8 * molecularAfr * 4)
      + 0.8 * molecularAfr * 4 / (1 + 0.8 * molecularAfr * 4) * 0.75
      + 0.8 * molecularAfr * 4 / (1 + 0.8 * molecularAfr * 4) * 0.25 = 1
    ring
  · show 0 ≤ 1 - 0.8 * molecularAfr * 4 / (1 + 0.8 * molecularAfr * 4)
    linarith
  · show 0 ≤ 0.8 * molecularAfr * 4 / (1 + 0.8 * molecularAfr * 4) * 0.75
    exact mul_nonneg hair (by norm_num)
  · show 0 ≤ 0.8 * molecularAfr * 4 / (1 + 0.8 * molecularAfr * 4) * 0.25
    exact mul_nonneg hair (by norm_num)
  · show (1.0 : K) - 2.0 / (1 + 2.0) + 2.0 / (1 + 2.0) * 0.75 + 2.0 / (1 + 2.0) * 0.25 = 1
    norm_num
  · show (0 : K) ≤ 1.0 - 2.0 / (1 + 2.0)
    norm_num
  · show (0 : K) ≤ 2.0 / (1 + 2.0) * 0.75
    norm_num
  · show (0 : K) ≤ 2.0 / (1 + 2.0) * 0.25
    norm_num

/-- C8 (amended) at a concrete input: the default `molecularAfr = 12.5`. -/
theorem mixtures_are_compositions_witness :
    (0 : ℚ) ≤ 12.5
      ∧ (fuelAirMix (12.5 : ℚ)).p_fuel + (fuelAirMix (12.5 : ℚ)).p_inert
          + (fuelAirMix (12.5 : ℚ)).p_o2 = 1 :=
  ⟨by norm_num, (mixtures_are_compositions (12.5 : ℚ) (by norm_num)).1.1⟩

/-- C9 (as stated, refuted): over the stand-in chamber, `molecularAfr = -1`, one tick with
`dt = 1` and throttle `0`: the main-path flow is `1` and the idle-path flow is `1`, both
`≥ 0`, and the cumulative injected fuel goes from `0` to `-5/11 + 1/3 = -4/33`. -/
theorem injected_fuel_decreases_negative_afr :
    (0 : ℚ) ≤ ((Intake.updateForcedInduction
        { benchIntake ForcedInductionType.None 0 (-1) with m_throttle := 0 } 1).mainFlowResult
          benchExternals 1).1
      ∧ (0 : ℚ) ≤ ((Intake.updateForcedInduction
          { benchIntake ForcedInductionType.None 0 (-1) with m_throttle := 0 } 1).idleFlowResult
            benchExternals 1).1
      ∧ (benchIntake ForcedInductionType.None 0 (-1)).m_totalFuelInjected = 0
      ∧ (Intake.tick benchExternals (benchIntake ForcedInductionType.None 0 (-1))
          (1, 0)).m_totalFuelInjected = -4/33 := by
  refine ⟨?_, ?_, rfl, ?_⟩
  · simp only [Intake.mainFlowResult, Intake.mainFlowParameters, Intake.flowAttenuation,
      Intake.getThrottlePlatePosition, updateForcedInduction_throttle,
      updateForcedInduction_idleThrottlePlatePosition, updateForcedInduction_inputFlowK,
      benchExternals, standInExternals, EngineSim.flowAttenuation, benchIntake,
      Intake.initialize, benchParameters]
    norm_num
  · simp only [Intake.idleFlowResult, Intake.idleFlowParameters, Intake.mainFlowParameters,
      updateForcedInduction_idleFlowK, benchExternals, standInExternals, benchIntake,
      Intake.initialize, benchParameters]
    norm_num
  · unfold Intake.tick
    rw [process_totalFuelInjected]
    simp only [Intake.mainFlowResult, Intake.idleFlowResult, Intake.idleFlowParameters,
      Intake.mainFlowParameters, Intake.flowAttenuation, Intake.getThrottlePlatePosition,
      updateForcedInduction_throttle, updateForcedInduction_idleThrottlePlatePosition,
      updateForcedInduction_inputFlowK, updateForcedInduction_idleFlowK, benchExternals,
      standInExternals, EngineSim.flowAttenuation, benchIntake, Intake.initialize,
      benchParameters, Intake.ctor, accumulateFuel,
      fuelAirMix, fuelMix]
    norm_num

/-- C9 (amended): for every configuration with `1 + idealAfr > 0`, where
`idealAfr = 0.8 * molecularAfr * 4` (in particular for every `molecularAfr ≥ 0`), and
every pair of flows returned by the flow primitive in a tick: if the main-path and
idle-path flows are both `≥ 0`, the cumulative injected fuel after the tick is at least
its value before the tick; if both flows are `≤ 0`, it is exactly unchanged. -/
theorem injected_fuel_monotone (ext : Externals K G) (s : Intake K G) (dt : K)
    (h : 0 < 1 + 0.8 * s.m_molecularAfr * 4) :
    (0 ≤ ((s.updateForcedInduction dt).mainFlowResult ext dt).1 →
        0 ≤ ((s.updateForcedInduction dt).idleFlowResult ext dt).1 →
        s.m_totalFuelInjected ≤ (s.process ext dt).m_totalFuelInjected)
      ∧ (((s.updateForcedInduction dt).mainFlowResult ext dt).1 ≤ 0 →
        ((s.updateForcedInduction dt).idleFlowResult ext dt).1 ≤ 0 →
        (s.process ext dt).m_totalFuelInjected = s.m_totalFuelInjected) := by
  rw [process_totalFuelInjected]
  refine ⟨fun _ _ => accumulateFuel_mono ?_ fuelMix_p_fuel_pos.le,
    fun h₁ h₂ => accumulateFuel_of_nonpos _ _ _ h₁ h₂⟩
  rw [fuelAirMix_p_fuel h]
  exact (one_div_pos.mpr h).le

/-- C9 (amended) at a concrete input: the stand-in chamber with `molecularAfr = 12.5`,
`dt = 1`, throttle `0`, where both flows are `1`. -/
theorem injected_fuel_monotone_witness :
    (0 : ℚ) < 1 + 0.8 * 12.5 * 4
      ∧ (0 ≤ ((Intake.updateForcedInduction
            { benchIntake ForcedInductionType.None 0 12.5 with m_throttle := 0 }
              1).mainFlowResult benchExternals 1).1 →
          0 ≤ ((Intake.updateForcedInduction
            { benchIntake ForcedInductionType.None 0 12.5 with m_throttle := 0 }
              1).idleFlowResult benchExternals 1).1 →
          (0 : ℚ) ≤ (Intake.process benchExternals
            { benchIntake ForcedInductionType.None 0 12.5 with m_throttle := 0 }
              1).m_totalFuelInjected) :=
  ⟨by norm_num,
    (injected_fuel_monotone benchExternals
      { benchIntake ForcedInductionType.None 0 12.5 with m_throttle := 0 } 1
      (by norm_num [benchIntake, Intake.initialize, benchParameters])).1⟩

/-- C10 (as stated, refuted): with the real cosine, and with `constants::pi` either the
decimal `3.14159265359` or the double nearest to `π`, `884279719003555 / 2^48`, the
attenuation factor at effective throttle position `1` is not `0`. -/
theorem flowAttenuation_one_ne_zero :
    flowAttenuation Real.cos (3.14159265359 : ℝ) 1 ≠ 0
      ∧ flowAttenuation Real.cos (884279719003555 / 281474976710656 : ℝ) 1 ≠ 0 := by
  constructor
  · have h := cos_half_rat_ne_zero 3.14159265359
    unfold flowAttenuation
    norm_num at h ⊢
    exact h
  · have h := cos_half_rat_ne_zero (884279719003555 / 281474976710656)
    unfold flowAttenuation
    norm_num at h ⊢
    exact h

/-- C10 (amended): with `std::cos` the real cosine, the main-path flow coefficient
handed to the flow primitive is `cos(p * pi / 2) * inputFlowK`, where
`p = idleThrottlePlatePosition * throttlePosition` and `pi` is the program's constant;
the attenuation factor is exactly `1` when `p = 0`; when `p = 1` it is `cos(pi / 2)`,
which is `0` if the constant is the number `π` and is not `0` for any rational value of
the constant (every `double` is rational). -/
theorem mainFlow_coefficient_attenuation {G : Type v} (ext : Externals ℝ G) (s : Intake ℝ G)
    (dt : ℝ) (hcos : ext.cos = Real.cos) :
    ((s.updateForcedInduction dt).mainFlowParameters ext dt).k_flow
        = Real.cos (s.m_idleThrottlePlatePosition * s.m_throttle * ext.pi / 2) * s.m_inputFlowK
      ∧ ((s.updateForcedInduction dt).mainFlowParameters ext dt).k_flow
        = (s.updateForcedInduction dt).flowAttenuation ext * s.m_inputFlowK
      ∧ (s.m_idleThrottlePlatePosition * s.m_throttle = 0 →
          (s.updateForcedInduction dt).flowAttenuation ext = 1)
      ∧ (s.m_idleThrottlePlatePosition * s.m_throttle = 1 → ext.pi = Real.pi →
          (s.updateForcedInduction dt).flowAttenuation ext = 0)
      ∧ (s.m_idleThrottlePlatePosition * s.m_throttle = 1 → ∀ q : ℚ, ext.pi = (q : ℝ) →
          (s.updateForcedInduction dt).flowAttenuation ext ≠ 0) := by
  refine ⟨by rw [mainFlowParameters_k_flow, hcos], ?_, ?_, ?_, ?_⟩
  · rw [mainFlowParameters_k_flow, flowAttenuation_after_controller]
    rfl
  · intro hp
    rw [flowAttenuation_after_controller, hp, hcos]
    simp [flowAttenuation]
  · intro hp hpi
    rw [flowAttenuation_after_controller, hp, hcos, hpi]
    simp [flowAttenuation]
  · intro hp q hq
    rw [flowAttenuation_after_controller, hp, hcos, hq]
    exact cos_half_rat_ne_zero q

/-- C10 (amended) at a concrete input: a freshly constructed intake over the stand-in
chamber with the real cosine; its idle throttle-plate position is `0`, so `p = 0`. -/
theorem mainFlow_coefficient_attenuation_witness :
    (Intake.updateForcedInduction
        (Intake.ctor (standInExternals Real.cos Real.pi) (0 : ℝ) 0 0) 1).flowAttenuation
      (standInExternals Real.cos Real.pi) = 1 :=
  (mainFlow_coefficient_attenuation (standInExternals Real.cos Real.pi)
    (Intake.ctor (standInExternals Real.cos Real.pi) (0 : ℝ) 0 0) 1 rfl).2.2.1
    (by simp [Intake.ctor])

/-- C11: for every two throttle positions (in particular every two in `[0, 1]`), all
other state and configuration equal, the flow coefficient handed to the flow primitive
for the idle-path call of the tick is the same value, the configured `idleFlowK`. -/
theorem idle_coefficient_independent_of_throttle (ext : Externals K G) (s : Intake K G)
    (a b dt : K) :
    ((Intake.updateForcedInduction { s with m_throttle := a } dt).idleFlowParameters ext dt).k_flow
        = s.m_idleFlowK
      ∧ ((Intake.updateForcedInduction { s with m_throttle := b } dt).idleFlowParameters
          ext dt).k_flow = s.m_idleFlowK
      ∧ (Intake.idleFlowResult ext (Intake.updateForcedInduction { s with m_throttle := a } dt)
          dt)
        = ext.gsFlow
            { (Intake.updateForcedInduction { s with m_throttle := a } dt).mainFlowParameters
                ext dt with k_flow := s.m_idleFlowK }
            (ext.gsReset
              ((Intake.updateForcedInduction { s with m_throttle := a } dt).mainFlowResult
                ext dt).2.1
              ((Intake.updateForcedInduction { s with m_throttle := a } dt).sourcePressure ext)
              ((Intake.updateForcedInduction { s with m_throttle := a } dt).sourceTemperature ext)
              fuelMix)
            ((Intake.updateForcedInduction { s with m_throttle := a } dt).mainFlowResult
              ext dt).2.2 := by
  refine ⟨idleFlowParameters_k_flow ext _ dt, idleFlowParameters_k_flow ext _ dt, ?_⟩
  unfold Intake.idleFlowResult Intake.idleFlowParameters
  rw [updateForcedInduction_idleFlowK]

/-- C17: `updateForcedInduction` changes `m_boostLevel` and `m_boostPressure` and no
other member (throttle, geometry and flow constants, forced-induction configuration,
boost temperature, recorded flow, cumulative injected fuel and the two chambers are as
before); a full `process` tick leaves the throttle, the geometry and flow constants and
the forced-induction configuration unchanged. -/
theorem controller_and_tick_frame (ext : Externals K G) (s : Intake K G) (dt : K) :
    s.updateForcedInduction dt
        = { s with
            m_boostLevel := (s.updateForcedInduction dt).m_boostLevel
            m_boostPressure := (s.updateForcedInduction dt).m_boostPressure }
      ∧ ((s.updateForcedInduction dt).m_throttle = s.m_throttle
        ∧ (s.updateForcedInduction dt).m_forcedInductionParameters
            = s.m_forcedInductionParameters
        ∧ (s.updateForcedInduction dt).m_boostTemperature = s.m_boostTemperature
        ∧ (s.updateForcedInduction dt).m_flow = s.m_flow
        ∧ (s.updateForcedInduction dt).m_totalFuelInjected = s.m_totalFuelInjected)
      ∧ ((s.process ext dt).m_throttle = s.m_throttle
        ∧ (s.process ext dt).m_crossSectionArea = s.m_crossSectionArea
        ∧ (s.process ext dt).m_inputFlowK = s.m_inputFlowK
        ∧ (s.process ext dt).m_idleFlowK = s.m_idleFlowK
        ∧ (s.process ext dt).m_runnerFlowRate = s.m_runnerFlowRate
        ∧ (s.process ext dt).m_molecularAfr = s.m_molecularAfr
        ∧ (s.process ext dt).m_idleThrottlePlatePosition = s.m_idleThrottlePlatePosition
        ∧ (s.process ext dt).m_runnerLength = s.m_runnerLength
        ∧ (s.process ext dt).m_velocityDecay = s.m_velocityDecay
        ∧ (s.process ext dt).m_forcedInductionParameters = s.m_forcedInductionParameters) := by
  have h := updateForcedInduction_eq s dt
  refine ⟨h, ⟨?_, ?_, ?_, ?_, ?_⟩, process_frame ext s dt⟩ <;> rw [h]

/-- C14: after every `process` tick, `getBoostTemperature` is the ambient temperature
(`units::celcius(25.0)`) when the pressure stored by the controller of that tick is `0`,
and otherwise is
`ambientTemperature * (1 + (((ambientPressure + boostPressure) / ambientPressure)^((g-1)/g) - 1)
  / max(0.05, efficiency))`,
where `g` is the plenum's heat-capacity ratio read before the flows of the tick. -/
theorem boostTemperature_after_tick (ext : Externals K G) (s : Intake K G) (dt : K) :
    ((s.process ext dt).m_boostPressure = 0 →
        (s.process ext dt).getBoostTemperature = ext.celcius25)
      ∧ ((s.process ext dt).m_boostPressure ≠ 0 →
        (s.process ext dt).getBoostTemperature
          = ext.celcius25
            * (1 + (ext.pow ((ext.atm1 + (s.process ext dt).m_boostPressure) / ext.atm1)
                  ((ext.gsHeatCapacityRatio s.m_system - 1) / ext.gsHeatCapacityRatio s.m_system)
                - 1)
              / stdMax 0.05 s.m_forcedInductionParameters.efficiency)) := by
  have ht : (s.process ext dt).getBoostTemperature
      = (s.updateForcedInduction dt).sourceTemperature ext := rfl
  rw [ht, process_boostPressure, sourceTemperature_after_controller]
  constructor
  · intro h0
    rw [if_neg (by rw [h0]; exact lt_irrefl _)]
  · intro hne
    rw [if_pos (lt_of_le_of_ne (updateForcedInduction_boostPressure_mem s dt).1 (Ne.symm hne))]

/-- C14 at a concrete input: a turbocharger over the stand-in chamber after one tick
at full throttle, where the stored pressure is `1/4`. -/
theorem boostTemperature_after_tick_witness :
    (Intake.process benchExternals (benchIntake ForcedInductionType.Turbocharger 0 12.5)
        (1/4)).m_boostPressure ≠ 0
      ∧ (Intake.process benchExternals (benchIntake ForcedInductionType.Turbocharger 0 12.5)
          (1/4)).getBoostTemperature
        = benchExternals.celcius25
          * (1 + (benchExternals.pow
                  ((benchExternals.atm1
                      + (Intake.process benchExternals
                          (benchIntake ForcedInductionType.Turbocharger 0 12.5)
                          (1/4)).m_boostPressure) / benchExternals.atm1)
                  ((benchExternals.gsHeatCapacityRatio
                        (benchIntake ForcedInductionType.Turbocharger 0 12.5).m_system - 1)
                    / benchExternals.gsHeatCapacityRatio
                        (benchIntake ForcedInductionType.Turbocharger 0 12.5).m_system)
                - 1)
              / stdMax 0.05
                  (benchIntake ForcedInductionType.Turbocharger 0
                    12.5).m_forcedInductionParameters.efficiency) := by
  have hp : (Intake.process benchExternals (benchIntake ForcedInductionType.Turbocharger 0 12.5)
      (1/4)).m_boostPressure ≠ 0 := by
    have hin : ¬ (benchIntake ForcedInductionType.Turbocharger 0 12.5).inert := by
      rintro (h | h)
      · exact absurd h (by decide)
      · exact absurd h (by norm_num [benchIntake, Intake.initialize, benchParameters,
          benchForcedInduction])
    rw [process_boostPressure, (updateForcedInduction_active hin (1/4)).2]
    simp +decide only [Intake.snapLevel, Intake.rampLevel, Intake.target, Intake.idleLevel,
      benchIntake, Intake.initialize, Intake.ctor, benchParameters, benchForcedInduction,
      stdClamp, stdMax, stdMin]
    norm_num
  exact ⟨hp, (boostTemperature_after_tick benchExternals
    (benchIntake ForcedInductionType.Turbocharger 0 12.5) (1/4)).2 hp⟩

/-- C16: for every configuration and every history of ticks, the boost pressure after
`initialize` and after every tick satisfies `0 ≤ boostPressure ≤ max(0, maxBoostPressure)`;
and in every tick, from any state, the source pressure `ambientPressure + boostPressure`
used for the flows is at least the ambient pressure. -/
theorem boostPressure_mem_zero_max (ext : Externals K G) (s₀ : Intake K G)
    (params : Parameters K) (ticks : List (K × K)) :
    (0 ≤ (Intake.run ext ( Intake.initialize ext s₀ params) ticks).m_boostPressure
        ∧ (Intake.run ext ( Intake.initialize ext s₀ params) ticks).m_boostPressure
          ≤ stdMax 0 params.forcedInduction.maxBoostPressure)
      ∧ ∀ (s : Intake K G) (dt : K),
          ext.atm1 ≤ (s.updateForcedInduction dt).sourcePressure ext := by
  have hm := stdMax_zero_nonneg params.forcedInduction.maxBoostPressure
  refine ⟨?_, fun s dt => ?_⟩
  · rcases List.eq_nil_or_concat ticks with rfl | ⟨pre, t, rfl⟩
    · show 0 ≤ stdClamp params.forcedInduction.idleBoostFraction 0 1 * _
        ∧ stdClamp params.forcedInduction.idleBoostFraction 0 1 * _ ≤ _
      exact ⟨mul_nonneg (idleLevel_nonneg _) hm,
        mul_le_of_le_one_left hm (idleLevel_le_one _)⟩
    · rw [List.concat_eq_append, run_snoc]
      have h := updateForcedInduction_boostPressure_mem
        { Intake.run ext ( Intake.initialize ext s₀ params) pre with m_throttle := t.2 } t.1
      have hpar : (Intake.run ext ( Intake.initialize ext s₀ params)
          pre).m_forcedInductionParameters = params.forcedInduction := by
        rw [run_parameters, initialize_parameters]
      rw [← hpar]
      exact h
  · show ext.atm1 ≤ ext.atm1 + (s.updateForcedInduction dt).m_boostPressure
    linarith [(updateForcedInduction_boostPressure_mem s dt).1]

/-- C19: for an active turbocharger, any fixed throttle, any prior boost level in
`[clamp(idleBoostFraction,0,1), 1]` and any `dt₁, dt₂ ≥ 0`, ticking with `dt₁` and then
with `dt₂` yields the same boost level and boost pressure as a single tick with
`dt₁ + dt₂`. -/
theorem turbo_tick_additive (ext : Externals K G) (s : Intake K G) (throttle dt₁ dt₂ : K)
    (hty : s.m_forcedInductionParameters.type = ForcedInductionType.Turbocharger)
    (hmax : 0 < s.m_forcedInductionParameters.maxBoostPressure)
    (hlo : stdClamp s.m_forcedInductionParameters.idleBoostFraction 0 1 ≤ s.m_boostLevel)
    (hhi : s.m_boostLevel ≤ 1) (h₁ : 0 ≤ dt₁) (h₂ : 0 ≤ dt₂) :
    ((s.tick ext (dt₁, throttle)).tick ext (dt₂, throttle)).m_boostLevel
        = (s.tick ext (dt₁ + dt₂, throttle)).m_boostLevel
      ∧ ((s.tick ext (dt₁, throttle)).tick ext (dt₂, throttle)).m_boostPressure
        = (s.tick ext (dt₁ + dt₂, throttle)).m_boostPressure := by
  have hact := active_of_type_of_pos (p := s.m_forcedInductionParameters)
    (by rw [hty]; decide) hmax
  have hpar := tick_parameters ext s (dt₁, throttle)
  have hlevel : ((s.tick ext (dt₁, throttle)).tick ext (dt₂, throttle)).m_boostLevel
      = (s.tick ext (dt₁ + dt₂, throttle)).m_boostLevel := by
    rw [tick_boostLevel_eq_levelStep, tick_boostLevel_eq_levelStep, tick_boostLevel_eq_levelStep,
      hpar]
    exact levelStep_turbo_additive _ _ throttle dt₁ dt₂ hty hmax h₁ h₂ hlo hhi
  refine ⟨hlevel, ?_⟩
  rw [tick_boostPressure_of_active ext (s.tick ext (dt₁, throttle)) (dt₂, throttle)
      (by rw [hpar]; exact hact),
    tick_boostPressure_of_active ext s (dt₁ + dt₂, throttle) hact, hlevel, hpar]

/-- C19 at a concrete input: idle fraction `1/5`, prior level `1/5`, throttle `3/4`,
`dt₁ = 1/4`, `dt₂ = 1/2`. -/
theorem turbo_tick_additive_witness :
    (Intake.tick benchExternals
        (Intake.tick benchExternals (benchIntake ForcedInductionType.Turbocharger (1/5) 12.5)
          (1/4, 3/4)) (1/2, 3/4)).m_boostLevel
      = (Intake.tick benchExternals (benchIntake ForcedInductionType.Turbocharger (1/5) 12.5)
          (1/4 + 1/2, 3/4)).m_boostLevel :=
  (turbo_tick_additive benchExternals (benchIntake ForcedInductionType.Turbocharger (1/5) 12.5)
    (3/4) (1/4) (1/2) rfl
    (by norm_num [benchIntake, Intake.initialize, benchParameters, benchForcedInduction])
    le_rfl (idleLevel_le_one _) (by norm_num) (by norm_num)).1

/-- C12: `parseForcedInductionType` returns `Turbocharger` exactly when the
ASCII-lowercased name is one of "turbo", "turbocharger", "turbo_charger"; returns
`Supercharger` exactly when it is one of "super", "supercharger", "blower",
"super_charger"; and returns `None` for every other string, among them the empty string
and names with surrounding whitespace; the result is unchanged by changing the case of
any letters of the input. -/
theorem parseForcedInductionType_spec (typeName : String) :
    (IntakeNode.parseForcedInductionType typeName = ForcedInductionType.Turbocharger ↔
        asciiLower typeName = "turbo" ∨ asciiLower typeName = "turbocharger"
          ∨ asciiLower typeName = "turbo_charger")
      ∧ (IntakeNode.parseForcedInductionType typeName = ForcedInductionType.Supercharger ↔
        asciiLower typeName = "super" ∨ asciiLower typeName = "supercharger"
          ∨ asciiLower typeName = "blower" ∨ asciiLower typeName = "super_charger")
      ∧ (IntakeNode.parseForcedInductionType typeName = ForcedInductionType.None ↔
        ¬ (asciiLower typeName = "turbo" ∨ asciiLower typeName = "turbocharger"
            ∨ asciiLower typeName = "turbo_charger")
          ∧ ¬ (asciiLower typeName = "super" ∨ asciiLower typeName = "supercharger"
            ∨ asciiLower typeName = "blower" ∨ asciiLower typeName = "super_charger"))
      ∧ (IntakeNode.parseForcedInductionType "" = ForcedInductionType.None
        ∧ IntakeNode.parseForcedInductionType " turbo" = ForcedInductionType.None
        ∧ IntakeNode.parseForcedInductionType "super " = ForcedInductionType.None
        ∧ IntakeNode.parseForcedInductionType "TuRbO_ChArGeR" = ForcedInductionType.Turbocharger
        ∧ IntakeNode.parseForcedInductionType "BLOWER" = ForcedInductionType.Supercharger)
      ∧ ∀ other : String, List.Forall₂ caseVariant typeName.data other.data →
          IntakeNode.parseForcedInductionType other
            = IntakeNode.parseForcedInductionType typeName := by
  have hparse : ∀ name : String, IntakeNode.parseForcedInductionType name
      = if asciiLower name = "turbo" ∨ asciiLower name = "turbocharger"
          ∨ asciiLower name = "turbo_charger" then ForcedInductionType.Turbocharger
        else if asciiLower name = "super" ∨ asciiLower name = "supercharger"
          ∨ asciiLower name = "blower" ∨ asciiLower name = "super_charger" then
          ForcedInductionType.Supercharger
        else ForcedInductionType.None := by
    intro name
    unfold IntakeNode.parseForcedInductionType
    rw [normalized_eq_asciiLower]
  have hdisj : ∀ x : String, (x = "turbo" ∨ x = "turbocharger" ∨ x = "turbo_charger") →
      ¬ (x = "super" ∨ x = "supercharger" ∨ x = "blower" ∨ x = "super_charger") := by
    rintro x (rfl | rfl | rfl) <;> decide
  refine ⟨?_, ?_, ?_, ⟨by decide, by decide, by decide, by decide, by decide⟩, ?_⟩
  · rw [hparse]
    split_ifs with h₁ h₂
    · exact ⟨fun _ => h₁, fun _ => rfl⟩
    · exact ⟨fun h => absurd h (by decide), fun h => absurd h h₁⟩
    · exact ⟨fun h => absurd h (by decide), fun h => absurd h h₁⟩
  · rw [hparse]
    split_ifs with h₁ h₂
    · exact ⟨fun h => absurd h (by decide), fun h => absurd h (hdisj _ h₁)⟩
    · exact ⟨fun _ => h₂, fun _ => rfl⟩
    · exact ⟨fun h => absurd h (by decide), fun h => absurd h h₂⟩
  · rw [hparse]
    split_ifs with h₁ h₂
    · exact ⟨fun h => absurd h (by decide), fun h => absurd h₁ h.1⟩
    · exact ⟨fun h => absurd h (by decide), fun h => absurd h₂ h.2⟩
    · exact ⟨fun _ => ⟨h₁, h₂⟩, fun _ => rfl⟩
  · intro other h
    rw [hparse, hparse, asciiLower_eq_of_caseVariant h]

/-- C13: `IntakeNode::generate` hands `initialize` a parameter record in which
`maxBoostPressure` is `max(0, configured maxBoostPressure)`, `efficiency` is the
configured efficiency when that is `> 0` and `1.0` otherwise, the type is
`parseForcedInductionType` of the configured name, and every other field has its
configured value. -/
theorem generate_parameters (ext : Externals K G) (node : IntakeNode K) (intake : Intake K G) :
    node.generateParameters
        = { node.m_parameters with
            forcedInduction :=
              { node.m_parameters.forcedInduction with
                type := IntakeNode.parseForcedInductionType node.m_forcedInductionTypeName
                maxBoostPressure := stdMax 0 node.m_parameters.forcedInduction.maxBoostPressure
                efficiency :=
                  if node.m_parameters.forcedInduction.efficiency > 0 then
                    node.m_parameters.forcedInduction.efficiency
                  else 1.0 } }
      ∧ node.generate ext intake
        = Intake.initialize ext intake
            { node.m_parameters with
              forcedInduction :=
                { node.m_parameters.forcedInduction with
                  type := IntakeNode.parseForcedInductionType node.m_forcedInductionTypeName
                  maxBoostPressure :=
                    stdMax 0 node.m_parameters.forcedInduction.maxBoostPressure
                  efficiency :=
                    if node.m_parameters.forcedInduction.efficiency > 0 then
                      node.m_parameters.forcedInduction.efficiency
                    else 1.0 } } := by
  have h : node.generateParameters
      = { node.m_parameters with
          forcedInduction :=
            { node.m_parameters.forcedInduction with
              type := IntakeNode.parseForcedInductionType node.m_forcedInductionTypeName
              maxBoostPressure := stdMax 0 node.m_parameters.forcedInduction.maxBoostPressure
              efficiency :=
                if node.m_parameters.forcedInduction.efficiency > 0 then
                  node.m_parameters.forcedInduction.efficiency
                else 1.0 } } := by
    unfold IntakeNode.generateParameters stdMax
    simp only
    rcases lt_trichotomy node.m_parameters.forcedInduction.maxBoostPressure 0 with hm | hm | hm
    · rcases le_or_lt node.m_parameters.forcedInduction.efficiency 0 with he | he
      · simp [hm, he, not_lt.mpr he, not_lt.mpr hm.le]
      · simp [hm, he, not_le.mpr he, not_lt.mpr hm.le]
    · rcases le_or_lt node.m_parameters.forcedInduction.efficiency 0 with he | he
      · simp [hm, he, not_lt.mpr he]
      · simp [hm, he, not_le.mpr he]
    · rcases le_or_lt node.m_parameters.forcedInduction.efficiency 0 with he | he
      · simp [hm, he, not_lt.mpr he, not_lt.mpr hm.le]
      · simp [hm, he, not_le.mpr he, not_lt.mpr hm.le]
  exact ⟨h, by unfold IntakeNode.generate; rw [h]⟩

/-- C15 (as stated, refuted): for the configuration with `molecularAfr = -5/16`, in the
first tick after `initialize`, `ideal_afr = -1` and the denominator `1 + ideal_afr` of
line 74 is `0`.  Over the stand-in chamber, whose mixture holds no fuel, the denominator
of the current air-fuel ratio of line 72 is `0` as well. -/
theorem zero_denominators :
    (0 : ℚ) ∈ Intake.processDenominators benchExternals
        (Intake.updateForcedInduction
          { benchIntake ForcedInductionType.Turbocharger 0 (-5/16) with m_throttle := 1 } 1)
      ∧ (0 : ℚ) ∈ Intake.chamberDenominators benchExternals
        (Intake.updateForcedInduction
          { benchIntake ForcedInductionType.Turbocharger 0 (-5/16) with m_throttle := 1 } 1) := by
  constructor
  · simp only [Intake.processDenominators, updateForcedInduction_molecularAfr]
    norm_num [benchIntake, Intake.initialize, benchParameters]
  · simp only [Intake.chamberDenominators, updateForcedInduction_system]
    simp [benchExternals, standInExternals]

/-- C15 (amended): for every configuration with `1 + idealAfr ≠ 0`, where
`idealAfr = 0.8 * molecularAfr * 4` (that is `molecularAfr ≠ -5/16`), a nonzero ambient
pressure constant, every state reachable from `initialize` by ticks and every further
tick: the denominators that the intake forms itself are nonzero, namely the floored spool
times and the floored snap time in `updateForcedInduction`, and `1 + idealAfr`,
`1 + idleAfr`, the ambient pressure and the floored efficiency in `process`. -/
theorem own_denominators_ne_zero (ext : Externals K G) (s₀ : Intake K G)
    (params : Parameters K) (ticks : List (K × K)) (t : K × K)
    (hafr : 1 + 0.8 * params.MolecularAfr * 4 ≠ 0) (hatm : ext.atm1 ≠ 0) :
    (∀ d ∈ Intake.controllerDenominators
          { Intake.run ext ( Intake.initialize ext s₀ params) ticks with m_throttle := t.2 },
        d ≠ 0)
      ∧ ∀ d ∈ Intake.processDenominators ext
          (Intake.updateForcedInduction
            { Intake.run ext ( Intake.initialize ext s₀ params) ticks with m_throttle := t.2 }
            t.1),
        d ≠ 0 := by
  refine ⟨controllerDenominators_ne_zero _, processDenominators_ne_zero ext _ ?_ hatm⟩
  rw [updateForcedInduction_molecularAfr]
  show 1 + 0.8 * (Intake.run ext ( Intake.initialize ext s₀ params) ticks).m_molecularAfr * 4 ≠ 0
  rw [run_molecularAfr]
  exact hafr

/-- C15 (amended) at a concrete input: the default `molecularAfr = 12.5` over the
stand-in chamber, after two ticks. -/
theorem own_denominators_ne_zero_witness :
    (1 + 0.8 * (12.5 : ℚ) * 4 ≠ 0) ∧ (benchExternals.atm1 ≠ 0)
      ∧ ∀ d ∈ Intake.processDenominators benchExternals
          (Intake.updateForcedInduction
            { Intake.run benchExternals
                ( Intake.initialize benchExternals (Intake.ctor benchExternals 0 0 0)
                  (benchParameters ForcedInductionType.Supercharger 0 12.5))
                [(1/4, 1), (1/4, 0)] with m_throttle := (1/2, 1/2).2 }
            (1/2, 1/2).1),
        d ≠ 0 :=
  ⟨by norm_num, by norm_num [benchExternals, standInExternals],
    (own_denominators_ne_zero benchExternals (Intake.ctor benchExternals 0 0 0)
      (benchParameters ForcedInductionType.Supercharger 0 12.5) [(1/4, 1), (1/4, 0)] (1/2, 1/2)
      (by norm_num [benchParameters]) (by norm_num [benchExternals, standInExternals])).2⟩

end Claims

end EngineSim
